import Mathlib

/-!
# The DHCP EVE sub-logger (`src/output-json-dhcp.c`)

A shallow embedding of the five functions of `output-json-dhcp.c`:
`JsonDHCPLogger`, `OutputDHCPLogDeInitCtxSub`, `OutputDHCPLogInitSub`,
`JsonDHCPLogThreadInit` and `JsonDHCPLogThreadDeinit`.

* C objects live in an explicit heap (`Heap`): a pointer is a number, `0` is `NULL`,
  reading or releasing an address that is not live is a `Fault`.
* Allocation may fail; the outcome of the upcoming requests is a script kept in the heap.
* Functions this file calls but does not define (the EVE envelope builder, the Rust DHCP
  encoder, the sink) are fields of `Env`; every call of one is recorded in `World.trace`.
-/

namespace DHCPLog

/-! ## Data model -/

/-- A C pointer: an address, with `0` for `NULL`. -/
abbrev Ptr := Nat

/-- The null pointer. -/
abbrev NULL : Ptr := 0

/-- Handle of a packet (`const Packet *p`). -/
abbrev Packet := Nat
/-- Handle of a flow (`Flow *f`). -/
abbrev Flow := Nat
/-- Handle of a transaction (`void *tx`). -/
abbrev Tx := Nat
/-- Handle of a configuration subtree (`ConfNode *conf`). -/
abbrev ConfNode := Nat

/-- Thread-module return codes, in the order of the enum (`TM_ECODE_OK = 0`). -/
inductive TmEcode
  | TM_ECODE_OK
  | TM_ECODE_FAILED
  | TM_ECODE_DONE
  deriving DecidableEq, Repr

export TmEcode (TM_ECODE_OK TM_ECODE_FAILED TM_ECODE_DONE)

/-- Modelled from the spec: the common-settings value (`OutputJsonCommonSettings`), whose
declaration is not among the sources. The spec names common-field toggles such as an
include-metadata flag; whatever else it holds is kept as an uninterpreted number. -/
structure OutputJsonCommonSettings where
  include_metadata : Bool
  other : Nat
  deriving DecidableEq, Repr

/-- Modelled from the spec: the envelope document (`JsonBuilder`), whose declaration is not
among the sources: an ordered list of field name and value. -/
structure JsonBuilder where
  fields : List (String × String)
  deriving DecidableEq, Repr

/-- Modelled from the spec: the reusable buffer (`MemBuffer`), whose declaration is not among
the sources: a capacity and the bytes written so far; the logical length is the number of
those bytes. -/
structure MemBuffer where
  size : Nat
  buffer : List Char
  deriving DecidableEq, Repr

/-- Logical length of a buffer. -/
def MemBuffer.offset (b : MemBuffer) : Nat := b.buffer.length

/-- Modelled from the spec: `MemBufferReset`, which is not among the sources: "a reset
operation that truncates logical length without deallocating capacity". -/
def MemBufferReset (b : MemBuffer) : MemBuffer := { b with buffer := [] }

/-- Modelled from the spec: the output sink (`LogFileCtx`), whose declaration is not among
the sources: the sequence of writes it has received, oldest first, one entry per write. -/
structure LogFileCtx where
  writes : List (List Char)
  deriving DecidableEq, Repr

/-- The sub-logger context, `struct LogDHCPFileCtx_`. -/
structure LogDHCPFileCtx where
  file_ctx : Ptr
  flags : Nat
  rs_logger : Ptr
  cfg : OutputJsonCommonSettings
  deriving DecidableEq, Repr

/-- The per-thread state, `struct LogDHCPLogThread_`. -/
structure LogDHCPLogThread where
  dhcplog_ctx : Ptr
  buffer : Ptr
  file_ctx : Ptr
  deriving DecidableEq, Repr

/-- The functions an `OutputCtx` can carry in its `DeInit` field. -/
inductive DeInitFn
  | OutputDHCPLogDeInitCtxSub
  | other (id : Nat)
  deriving DecidableEq, Repr

/-- The fields of `OutputCtx` this file touches: `data` and `DeInit` (`none` is `NULL`). -/
structure OutputCtx where
  data : Ptr
  DeInit : Option DeInitFn
  deriving DecidableEq, Repr

/-- The fields of the parent's `OutputJsonCtx` this file reads. -/
structure OutputJsonCtx where
  file_ctx : Ptr
  cfg : OutputJsonCommonSettings
  deriving DecidableEq, Repr

/-- The result of a sub-module constructor, `OutputInitResult`. -/
structure OutputInitResult where
  ctx : Ptr
  ok : Bool
  deriving DecidableEq, Repr

/-- Application-layer protocols, as far as this file names them. -/
inductive AppProto
  | ALPROTO_DHCP
  | ALPROTO_OTHER (id : Nat)
  deriving DecidableEq, Repr

export AppProto (ALPROTO_DHCP)

/-- The transport protocol number of UDP. -/
abbrev IPPROTO_UDP : Nat := 17

/-! ## The heap -/

/-- What a heap cell can hold. -/
inductive Obj
  | thread (t : LogDHCPLogThread)
  | membuffer (b : MemBuffer)
  | dhcpctx (c : LogDHCPFileCtx)
  | outputctx (o : OutputCtx)
  | jsonctx (j : OutputJsonCtx)
  | filectx (f : LogFileCtx)
  deriving DecidableEq, Repr

/-- What goes wrong when the C code would touch memory that is not live. -/
inductive Fault
  | invalid_read (p : Ptr)
  | invalid_write (p : Ptr)
  | invalid_free (p : Ptr)
  deriving DecidableEq, Repr

/-- The heap: live cells by address, the log of released addresses (oldest first), the
last address handed out, and the script of the upcoming allocation requests (`true`: the
request fails; past the end of the script every request succeeds). -/
structure Heap where
  next : Nat
  cells : List (Ptr × Obj)
  freed : List Ptr
  oom : List Bool
  deriving DecidableEq, Repr

/-- Replace the object of the first cell at address `p`. -/
def putCell (p : Ptr) (o : Obj) : List (Ptr × Obj) → List (Ptr × Obj)
  | [] => []
  | (q, x) :: rest => if q = p then (p, o) :: rest else (q, x) :: putCell p o rest

/-- Remove the first cell at address `p`. -/
def dropCell (p : Ptr) : List (Ptr × Obj) → List (Ptr × Obj)
  | [] => []
  | (q, x) :: rest => if q = p then rest else (q, x) :: dropCell p rest

/-- The object of the first cell at address `p`. -/
def findCell (p : Ptr) : List (Ptr × Obj) → Option Obj
  | [] => none
  | (q, x) :: rest => if q = p then some x else findCell p rest

namespace Heap

/-- The live object at `p`, if any. -/
def lookup (h : Heap) (p : Ptr) : Option Obj := findCell p h.cells

/-- Overwrite the live object at `p` (no effect when `p` is not live). -/
def put (h : Heap) (p : Ptr) (o : Obj) : Heap := { h with cells := putCell p o h.cells }

/-- One allocation request for an object initialised to `o`: `NULL` when the script says the
request fails, a fresh address otherwise. -/
def alloc (h : Heap) (o : Obj) : Ptr × Heap :=
  if h.oom.headD false then
    (NULL, { h with oom := h.oom.tail })
  else
    (h.next + 1,
      { next := h.next + 1, cells := (h.next + 1, o) :: h.cells, freed := h.freed,
        oom := h.oom.tail })

/-- Release the cell at `p`: `free(NULL)` does nothing, releasing an address that is not
live is a fault. -/
def free (h : Heap) (p : Ptr) : Except Fault Heap :=
  if p = NULL then .ok h
  else match h.lookup p with
    | none => .error (.invalid_free p)
    | some _ => .ok { h with cells := dropCell p h.cells, freed := h.freed ++ [p] }

/-- Store to a live cell. -/
def store (h : Heap) (p : Ptr) (o : Obj) : Except Fault Heap :=
  match h.lookup p with
  | none => .error (.invalid_write p)
  | some _ => .ok (h.put p o)

/-- Read a `LogDHCPLogThread` through a pointer. -/
def getThread (h : Heap) (p : Ptr) : Except Fault LogDHCPLogThread :=
  match h.lookup p with
  | some (.thread t) => .ok t
  | _ => .error (.invalid_read p)

/-- Read a `MemBuffer` through a pointer. -/
def getMemBuffer (h : Heap) (p : Ptr) : Except Fault MemBuffer :=
  match h.lookup p with
  | some (.membuffer b) => .ok b
  | _ => .error (.invalid_read p)

/-- Read a `LogDHCPFileCtx` through a pointer. -/
def getDHCPFileCtx (h : Heap) (p : Ptr) : Except Fault LogDHCPFileCtx :=
  match h.lookup p with
  | some (.dhcpctx c) => .ok c
  | _ => .error (.invalid_read p)

/-- Read an `OutputCtx` through a pointer. -/
def getOutputCtx (h : Heap) (p : Ptr) : Except Fault OutputCtx :=
  match h.lookup p with
  | some (.outputctx o) => .ok o
  | _ => .error (.invalid_read p)

/-- Read an `OutputJsonCtx` through a pointer. -/
def getOutputJsonCtx (h : Heap) (p : Ptr) : Except Fault OutputJsonCtx :=
  match h.lookup p with
  | some (.jsonctx j) => .ok j
  | _ => .error (.invalid_read p)

/-- Read a `LogFileCtx` through a pointer. -/
def getLogFileCtx (h : Heap) (p : Ptr) : Except Fault LogFileCtx :=
  match h.lookup p with
  | some (.filectx f) => .ok f
  | _ => .error (.invalid_read p)

/-- A well-formed heap: no cell sits at `NULL`, every live address has been handed out
already (so a fresh address is fresh), and no address is live twice. -/
def WF (h : Heap) : Prop :=
  (∀ c ∈ h.cells, c.1 ≠ NULL ∧ c.1 ≤ h.next) ∧ (h.cells.map Prod.fst).Nodup

instance (h : Heap) : Decidable h.WF := inferInstanceAs (Decidable (_ ∧ _))

end Heap

/-! ## External calls and the world -/

/-- One call of a function that lives outside this file, with its arguments. -/
inductive Event
  | rs_dhcp_logger_do_log (logger : Ptr) (tx : Tx)
  | CreateEveHeader (p : Packet) (dir : Nat) (event_type : String)
  | EveAddCommonOptions (cfg : OutputJsonCommonSettings) (p : Packet) (f : Flow)
      (js : JsonBuilder)
  | rs_dhcp_logger_log (logger : Ptr) (tx : Tx) (js : JsonBuilder)
  | MemBufferReset (buffer : Ptr)
  | OutputJsonBuilderBuffer (js : JsonBuilder) (file_ctx : Ptr) (buffer : Ptr)
  | jb_free (js : JsonBuilder)
  | rs_dhcp_logger_new (conf : ConfNode)
  | rs_dhcp_logger_free (logger : Ptr)
  | AppLayerParserRegisterLogger (ipproto : Nat) (alproto : AppProto)
  | LogFileEnsureExists (parent : Ptr) (thread_id : Nat)
  deriving DecidableEq, Repr

/-- Modelled from the spec: the functions this file calls and does not define (the envelope
builder, the protocol encoder and its filter, the sink), and the constant
`JSON_OUTPUT_BUFFER_SIZE`. They are parameters: the theorems hold for every choice.

* `rs_dhcp_logger_do_log`: the filter predicate, "a pure boolean function".
* `CreateEveHeader`: the envelope skeleton, `none` for the `NULL` result.
* `EveAddCommonOptions`: applies the common settings to the envelope.
* `rs_dhcp_logger_log`: the encoder, `ok | EncodeError` together with the envelope it leaves.
* `OutputJsonBuilderBuffer`: serialises the envelope into the buffer and flushes the buffer
  to the sink; its `int` result is `0` on success.
* `rs_dhcp_logger_new`: the encoder constructor, `0` for a `NULL` result.
* `LogFileEnsureExists`: the sink handle for a thread id, `0` for a `NULL` result. -/
structure Env where
  JSON_OUTPUT_BUFFER_SIZE : Nat
  rs_dhcp_logger_do_log : Ptr → Tx → Bool
  CreateEveHeader : Packet → Nat → String → Option JsonBuilder
  EveAddCommonOptions : OutputJsonCommonSettings → Packet → Flow → JsonBuilder → JsonBuilder
  rs_dhcp_logger_log : Ptr → Tx → JsonBuilder → Bool × JsonBuilder
  OutputJsonBuilderBuffer : JsonBuilder → LogFileCtx → MemBuffer → Int × LogFileCtx × MemBuffer
  rs_dhcp_logger_new : ConfNode → Ptr
  LogFileEnsureExists : Ptr → Nat → Ptr

/-- The state the functions of this file run in: the heap, the external calls made so far
(oldest first) and the application-layer logger registry. -/
structure World where
  heap : Heap
  trace : List Event
  registry : List (Nat × AppProto)
  deriving DecidableEq, Repr

namespace World

/-- Record one external call. -/
def call (w : World) (e : Event) : World := { w with trace := w.trace ++ [e] }

/-- Replace the heap. -/
def withHeap (w : World) (h : Heap) : World := { w with heap := h }

end World

/-! ## The functions of `output-json-dhcp.c` -/

/-- Modelled from the spec: `AppLayerParserRegisterLogger`, which is not among the sources:
it "registers the (transportProto, appProto) pair so the transaction-completion engine knows
to invoke this framework". -/
def AppLayerParserRegisterLogger (ipproto : Nat) (alproto : AppProto) (w : World) : World :=
  { w with
    trace := w.trace ++ [Event.AppLayerParserRegisterLogger ipproto alproto]
    registry := (ipproto, alproto) :: w.registry }

/-- The function `JsonDHCPLogger(tv, thread_data, p, f, state, tx, tx_id)`; `tv`, `state` and `tx_id`
are not used by the body. The results of `rs_dhcp_logger_log` and of
`OutputJsonBuilderBuffer` are discarded, as in the source. The buffer stays at its address
when `OutputJsonBuilderBuffer` grows it. -/
def JsonDHCPLogger (E : Env) (thread_data : Ptr) (p : Packet) (f : Flow) (tx : Tx)
    (w : World) : Except Fault (TmEcode × World) := do
  -- LogDHCPLogThread *thread = thread_data; LogDHCPFileCtx *ctx = thread->dhcplog_ctx;
  let thread ← w.heap.getThread thread_data
  let ctx ← w.heap.getDHCPFileCtx thread.dhcplog_ctx
  -- if (!rs_dhcp_logger_do_log(ctx->rs_logger, tx)) return TM_ECODE_OK;
  let w := w.call (.rs_dhcp_logger_do_log ctx.rs_logger tx)
  if !E.rs_dhcp_logger_do_log ctx.rs_logger tx then
    return (TM_ECODE_OK, w)
  -- JsonBuilder *js = CreateEveHeader((Packet *)p, 0, "dhcp", NULL);
  let w := w.call (.CreateEveHeader p 0 "dhcp")
  match E.CreateEveHeader p 0 "dhcp" with
  | none =>
    -- if (unlikely(js == NULL)) return TM_ECODE_FAILED;
    return (TM_ECODE_FAILED, w)
  | some js =>
    -- EveAddCommonOptions(&thread->dhcplog_ctx->cfg, p, f, js);
    let w := w.call (.EveAddCommonOptions ctx.cfg p f js)
    let js := E.EveAddCommonOptions ctx.cfg p f js
    -- rs_dhcp_logger_log(ctx->rs_logger, tx, js);
    let w := w.call (.rs_dhcp_logger_log ctx.rs_logger tx js)
    let js := (E.rs_dhcp_logger_log ctx.rs_logger tx js).2
    -- MemBufferReset(thread->buffer);
    let buf ← w.heap.getMemBuffer thread.buffer
    let h ← w.heap.store thread.buffer (.membuffer (MemBufferReset buf))
    let w := (w.withHeap h).call (.MemBufferReset thread.buffer)
    -- OutputJsonBuilderBuffer(js, thread->file_ctx, &thread->buffer);
    let fc ← w.heap.getLogFileCtx thread.file_ctx
    let buf ← w.heap.getMemBuffer thread.buffer
    let out := E.OutputJsonBuilderBuffer js fc buf
    let h ← w.heap.store thread.file_ctx (.filectx out.2.1)
    let h ← h.store thread.buffer (.membuffer out.2.2)
    let w := (w.withHeap h).call (.OutputJsonBuilderBuffer js thread.file_ctx thread.buffer)
    -- jb_free(js);
    let w := w.call (.jb_free js)
    return (TM_ECODE_OK, w)

/-- The function `OutputDHCPLogDeInitCtxSub(output_ctx)`. -/
def OutputDHCPLogDeInitCtxSub (output_ctx : Ptr) (w : World) : Except Fault World := do
  -- LogDHCPFileCtx *dhcplog_ctx = (LogDHCPFileCtx *)output_ctx->data;
  let octx ← w.heap.getOutputCtx output_ctx
  let dhcplog_ctx := octx.data
  -- rs_dhcp_logger_free(dhcplog_ctx->rs_logger);
  let d ← w.heap.getDHCPFileCtx dhcplog_ctx
  let w := w.call (.rs_dhcp_logger_free d.rs_logger)
  -- SCFree(dhcplog_ctx); SCFree(output_ctx);
  let h ← w.heap.free dhcplog_ctx
  let h ← h.free output_ctx
  return w.withHeap h

/-- The function `OutputDHCPLogInitSub(conf, parent_ctx)`. -/
def OutputDHCPLogInitSub (E : Env) (conf : ConfNode) (parent_ctx : Ptr) (w : World) :
    Except Fault (OutputInitResult × World) := do
  -- OutputInitResult result = { NULL, false }; OutputJsonCtx *ajt = parent_ctx->data;
  let result : OutputInitResult := { ctx := NULL, ok := false }
  let parent ← w.heap.getOutputCtx parent_ctx
  let ajt := parent.data
  -- LogDHCPFileCtx *dhcplog_ctx = SCCalloc(1, sizeof(*dhcplog_ctx));
  let (dhcplog_ctx, h) := w.heap.alloc (.dhcpctx ⟨NULL, 0, NULL, ⟨false, 0⟩⟩)
  let w := w.withHeap h
  if dhcplog_ctx = NULL then
    return (result, w)
  -- dhcplog_ctx->file_ctx = ajt->file_ctx; dhcplog_ctx->cfg = ajt->cfg;
  let a ← w.heap.getOutputJsonCtx ajt
  let d ← w.heap.getDHCPFileCtx dhcplog_ctx
  let h ← w.heap.store dhcplog_ctx (.dhcpctx { d with file_ctx := a.file_ctx, cfg := a.cfg })
  let w := w.withHeap h
  -- OutputCtx *output_ctx = SCCalloc(1, sizeof(*output_ctx));
  let (output_ctx, h) := w.heap.alloc (.outputctx ⟨NULL, none⟩)
  let w := w.withHeap h
  if output_ctx = NULL then
    -- SCFree(dhcplog_ctx); return result;
    let h ← w.heap.free dhcplog_ctx
    return (result, w.withHeap h)
  -- output_ctx->data = dhcplog_ctx; output_ctx->DeInit = OutputDHCPLogDeInitCtxSub;
  let h ← w.heap.store output_ctx
    (.outputctx { data := dhcplog_ctx, DeInit := some .OutputDHCPLogDeInitCtxSub })
  let w := w.withHeap h
  -- dhcplog_ctx->rs_logger = rs_dhcp_logger_new(conf);
  let w := w.call (.rs_dhcp_logger_new conf)
  let d ← w.heap.getDHCPFileCtx dhcplog_ctx
  let h ← w.heap.store dhcplog_ctx (.dhcpctx { d with rs_logger := E.rs_dhcp_logger_new conf })
  let w := w.withHeap h
  -- AppLayerParserRegisterLogger(IPPROTO_UDP, ALPROTO_DHCP);
  let w := AppLayerParserRegisterLogger IPPROTO_UDP ALPROTO_DHCP w
  -- result.ctx = output_ctx; result.ok = true; return result;
  return ({ ctx := output_ctx, ok := true }, w)

/-- The `error_exit:` label of `JsonDHCPLogThreadInit`. -/
def JsonDHCPLogThreadInit.error_exit (thread : Ptr) (data : Ptr) (w : World) :
    Except Fault (TmEcode × Ptr × World) := do
  -- if (unlikely(thread->buffer != NULL)) MemBufferFree(thread->buffer);
  let t ← w.heap.getThread thread
  let h ← if t.buffer ≠ NULL then w.heap.free t.buffer else pure w.heap
  -- SCFree(thread); return TM_ECODE_FAILED;
  let h ← h.free thread
  return (TM_ECODE_FAILED, data, w.withHeap h)

/-- The function `JsonDHCPLogThreadInit(t, initdata, data)`: `thread_id` is `t->id`, the argument `data`
is the value of `*data` before the call, and the second component of the result is its
value after the call. -/
def JsonDHCPLogThreadInit (E : Env) (thread_id : Nat) (initdata : Ptr) (data : Ptr)
    (w : World) : Except Fault (TmEcode × Ptr × World) := do
  -- LogDHCPLogThread *thread = SCCalloc(1, sizeof(*thread));
  let (thread, h) := w.heap.alloc (.thread ⟨NULL, NULL, NULL⟩)
  let w := w.withHeap h
  if thread = NULL then
    return (TM_ECODE_FAILED, data, w)
  -- if (initdata == NULL) goto error_exit;
  if initdata = NULL then
    JsonDHCPLogThreadInit.error_exit thread data w
  else
  -- thread->buffer = MemBufferCreateNew(JSON_OUTPUT_BUFFER_SIZE);
  let (buffer, h) := w.heap.alloc (.membuffer ⟨E.JSON_OUTPUT_BUFFER_SIZE, []⟩)
  let w := w.withHeap h
  let t ← w.heap.getThread thread
  let h ← w.heap.store thread (.thread { t with buffer := buffer })
  let w := w.withHeap h
  -- if (unlikely(thread->buffer == NULL)) goto error_exit;
  if buffer = NULL then
    JsonDHCPLogThreadInit.error_exit thread data w
  else
  -- thread->dhcplog_ctx = ((OutputCtx *)initdata)->data;
  let octx ← w.heap.getOutputCtx initdata
  let t ← w.heap.getThread thread
  let h ← w.heap.store thread (.thread { t with dhcplog_ctx := octx.data })
  let w := w.withHeap h
  -- thread->file_ctx = LogFileEnsureExists(thread->dhcplog_ctx->file_ctx, t->id);
  let d ← w.heap.getDHCPFileCtx octx.data
  let w := w.call (.LogFileEnsureExists d.file_ctx thread_id)
  let file_ctx := E.LogFileEnsureExists d.file_ctx thread_id
  let t ← w.heap.getThread thread
  let h ← w.heap.store thread (.thread { t with file_ctx := file_ctx })
  let w := w.withHeap h
  -- if (!thread->file_ctx) goto error_exit;
  if file_ctx = NULL then
    JsonDHCPLogThreadInit.error_exit thread data w
  else
  -- *data = (void *)thread; return TM_ECODE_OK;
  return (TM_ECODE_OK, thread, w)

/-- The function `JsonDHCPLogThreadDeinit(t, data)`; `t` is not used by the body. -/
def JsonDHCPLogThreadDeinit (data : Ptr) (w : World) : Except Fault (TmEcode × World) := do
  -- if (thread == NULL) return TM_ECODE_OK;
  if data = NULL then
    return (TM_ECODE_OK, w)
  -- if (thread->buffer != NULL) MemBufferFree(thread->buffer);
  let thread ← w.heap.getThread data
  let h ← if thread.buffer ≠ NULL then w.heap.free thread.buffer else pure w.heap
  -- SCFree(thread);
  let h ← h.free data
  return (TM_ECODE_OK, w.withHeap h)

/-! ## The `Ready` state of a thread -/

/-- The thread state at `thread_data` is in `Ready`: the pointer leads to a live thread
record `thread` whose three pointers lead to the live sub-logger context `ctx`, the live
buffer `buf` and the live sink handle `fc`. -/
def Ready (w : World) (thread_data : Ptr) (thread : LogDHCPLogThread) (ctx : LogDHCPFileCtx)
    (buf : MemBuffer) (fc : LogFileCtx) : Prop :=
  w.heap.lookup thread_data = some (.thread thread) ∧
  w.heap.lookup thread.dhcplog_ctx = some (.dhcpctx ctx) ∧
  w.heap.lookup thread.buffer = some (.membuffer buf) ∧
  w.heap.lookup thread.file_ctx = some (.filectx fc)

instance (w : World) (thread_data : Ptr) (thread : LogDHCPLogThread) (ctx : LogDHCPFileCtx)
    (buf : MemBuffer) (fc : LogFileCtx) : Decidable (Ready w thread_data thread ctx buf fc) :=
  inferInstanceAs (Decidable (_ ∧ _ ∧ _ ∧ _))

/-- The external calls that write to the sink. -/
def Event.isSinkWrite : Event → Bool
  | .OutputJsonBuilderBuffer _ _ _ => true
  | _ => false

/-- The envelope handed to the sink on the logging path: the header, with the common
settings applied, as the encoder leaves it. -/
def document (E : Env) (ctx : LogDHCPFileCtx) (p : Packet) (f : Flow) (tx : Tx)
    (js : JsonBuilder) : JsonBuilder :=
  (E.rs_dhcp_logger_log ctx.rs_logger tx (E.EveAddCommonOptions ctx.cfg p f js)).2

/-- The external calls of one pass through the logging path, in order. -/
def loggedCalls (E : Env) (thread : LogDHCPLogThread) (ctx : LogDHCPFileCtx) (p : Packet)
    (f : Flow) (tx : Tx) (js : JsonBuilder) : List Event :=
  [ .rs_dhcp_logger_do_log ctx.rs_logger tx,
    .CreateEveHeader p 0 "dhcp",
    .EveAddCommonOptions ctx.cfg p f js,
    .rs_dhcp_logger_log ctx.rs_logger tx (E.EveAddCommonOptions ctx.cfg p f js),
    .MemBufferReset thread.buffer,
    .OutputJsonBuilderBuffer (document E ctx p f tx js) thread.file_ctx thread.buffer,
    .jb_free (document E ctx p f tx js) ]

/-- The world one pass through the logging path leaves. -/
def loggedWorld (E : Env) (w : World) (thread : LogDHCPLogThread) (ctx : LogDHCPFileCtx)
    (buf : MemBuffer) (fc : LogFileCtx) (p : Packet) (f : Flow) (tx : Tx)
    (js : JsonBuilder) : World :=
  { heap :=
      ((w.heap.put thread.buffer (.membuffer (MemBufferReset buf))).put thread.file_ctx
        (.filectx (E.OutputJsonBuilderBuffer (document E ctx p f tx js) fc
          (MemBufferReset buf)).2.1)).put thread.buffer
        (.membuffer (E.OutputJsonBuilderBuffer (document E ctx p f tx js) fc
          (MemBufferReset buf)).2.2)
    trace := w.trace ++ loggedCalls E thread ctx p f tx js
    registry := w.registry }

/-! ## A concrete environment and concrete worlds

Used to run the functions on explicit inputs. -/

/-- A simple rendering of an envelope as bytes: `name:value,` for each field, then a
newline. -/
def serialise (js : JsonBuilder) : List Char :=
  js.fields.foldr (fun kv acc => kv.1.data ++ ':' :: kv.2.data ++ ',' :: acc) [Char.ofNat 10]

/-- Modelled from the spec: a sample sink write, `OutputJsonBuilderBuffer`, which is not
among the sources: "serialize the complete envelope into the thread's buffer", then "flush
the buffer contents to the thread's sink handle"; the flush succeeds (result `0`). -/
def sampleOutputJsonBuilderBuffer (js : JsonBuilder) (fc : LogFileCtx) (buf : MemBuffer) :
    Int × LogFileCtx × MemBuffer :=
  (0, { writes := fc.writes ++ [buf.buffer ++ serialise js] },
    { buf with buffer := buf.buffer ++ serialise js })

/-- Modelled from the spec: a sample environment. The filter accepts the transactions with an
odd handle; no header can be created for packet `0`; the common settings add a `metadata`
field when `include_metadata` is set; the encoder appends `dhcp_type: offer` and succeeds
for handles below `100`, and fails leaving the envelope as it is otherwise; the sink hands
every thread the parent handle. -/
def sampleEnv : Env where
  JSON_OUTPUT_BUFFER_SIZE := 65535
  rs_dhcp_logger_do_log := fun _ tx => tx % 2 == 1
  CreateEveHeader := fun p _ event_type =>
    if p = 0 then none else some ⟨[("timestamp", "t0"), ("event_type", event_type)]⟩
  EveAddCommonOptions := fun cfg _ _ js =>
    if cfg.include_metadata then ⟨js.fields ++ [("metadata", "m0")]⟩ else js
  rs_dhcp_logger_log := fun _ tx js =>
    if tx < 100 then (true, ⟨js.fields ++ [("dhcp_type", "offer")]⟩) else (false, js)
  OutputJsonBuilderBuffer := sampleOutputJsonBuilderBuffer
  rs_dhcp_logger_new := fun conf => conf + 1000
  LogFileEnsureExists := fun parent _ => parent

/-- The sample environment with a sink whose flush fails: nothing reaches the sink and
`OutputJsonBuilderBuffer` reports `-1`. -/
def brokenSinkEnv : Env :=
  { sampleEnv with
    OutputJsonBuilderBuffer := fun js fc buf =>
      (-1, fc, { buf with buffer := buf.buffer ++ serialise js }) }

/-- The sample environment with a sink that refuses a handle to every thread. -/
def noHandleEnv : Env := { sampleEnv with LogFileEnsureExists := fun _ _ => NULL }

/-- The sample environment with an encoder constructor that returns `NULL`. -/
def nullEncoderEnv : Env := { sampleEnv with rs_dhcp_logger_new := fun _ => NULL }

/-- The heap before the sub-logger is constructed: the sink at `1`, the parent's
`OutputJsonCtx` at `2`, the parent `OutputCtx` at `3`. -/
def heapParent : Heap :=
  { next := 3
    cells := [(3, .outputctx ⟨2, none⟩), (2, .jsonctx ⟨1, ⟨true, 0⟩⟩), (1, .filectx ⟨[]⟩)]
    freed := []
    oom := [] }

/-- The world before the sub-logger is constructed. -/
def worldParent : World := { heap := heapParent, trace := [], registry := [] }

/-- The world before the sub-logger is constructed, with a parent that has no sink. -/
def worldNoSink : World :=
  { heap :=
      { next := 3
        cells := [(3, .outputctx ⟨2, none⟩), (2, .jsonctx ⟨NULL, ⟨true, 0⟩⟩)]
        freed := []
        oom := [] }
    trace := []
    registry := [] }

/-- The world `OutputDHCPLogInitSub sampleEnv 7 3` makes of `worldParent`: the sub-logger
context at `4`, its `OutputCtx` at `5`. -/
def worldCtx : World :=
  { heap :=
      { next := 5
        cells :=
          [(5, .outputctx ⟨4, some .OutputDHCPLogDeInitCtxSub⟩),
           (4, .dhcpctx ⟨1, 0, 1007, ⟨true, 0⟩⟩),
           (3, .outputctx ⟨2, none⟩), (2, .jsonctx ⟨1, ⟨true, 0⟩⟩), (1, .filectx ⟨[]⟩)]
        freed := []
        oom := [] }
    trace := [.rs_dhcp_logger_new 7, .AppLayerParserRegisterLogger IPPROTO_UDP ALPROTO_DHCP]
    registry := [(IPPROTO_UDP, ALPROTO_DHCP)] }

/-- The world `JsonDHCPLogThreadInit sampleEnv 0 5` makes of `worldCtx`: the thread state
at `6`, its buffer at `7`. -/
def worldReady : World :=
  { heap :=
      { next := 7
        cells :=
          [(7, .membuffer ⟨65535, []⟩), (6, .thread ⟨4, 7, 1⟩),
           (5, .outputctx ⟨4, some .OutputDHCPLogDeInitCtxSub⟩),
           (4, .dhcpctx ⟨1, 0, 1007, ⟨true, 0⟩⟩),
           (3, .outputctx ⟨2, none⟩), (2, .jsonctx ⟨1, ⟨true, 0⟩⟩), (1, .filectx ⟨[]⟩)]
        freed := []
        oom := [] }
    trace :=
      [.rs_dhcp_logger_new 7, .AppLayerParserRegisterLogger IPPROTO_UDP ALPROTO_DHCP,
       .LogFileEnsureExists 1 0]
    registry := [(IPPROTO_UDP, ALPROTO_DHCP)] }

/-- The same world with allocation requests that are scripted: `worldCtx` where the
upcoming requests have the outcomes `oom`. -/
def worldCtxScript (oom : List Bool) : World :=
  { worldCtx with heap := { worldCtx.heap with oom := oom } }

/-- The world before construction where the upcoming requests have the outcomes `oom`. -/
def worldParentScript (oom : List Bool) : World :=
  { worldParent with heap := { worldParent.heap with oom := oom } }

/-- The thread record of `worldReady`. -/
def sampleThread : LogDHCPLogThread := ⟨4, 7, 1⟩

/-- The sub-logger context of `worldReady`. -/
def sampleCtx : LogDHCPFileCtx := ⟨1, 0, 1007, ⟨true, 0⟩⟩

/-- The header the sample environment creates for a `dhcp` event. -/
def sampleHeader : JsonBuilder := ⟨[("timestamp", "t0"), ("event_type", "dhcp")]⟩

/-! ## Heap lemmas -/

theorem findCell_putCell_same (p : Ptr) (o x : Obj) (cs : List (Ptr × Obj))
    (h : findCell p cs = some x) : findCell p (putCell p o cs) = some o := by
  induction cs with
  | nil => simp [findCell] at h
  | cons c rest ih =>
    obtain ⟨q, y⟩ := c
    by_cases hq : q = p
    · simp [findCell, putCell, hq]
    · simp only [findCell, putCell, hq, if_false] at h ⊢
      exact ih h

theorem findCell_putCell_ne (p q : Ptr) (o : Obj) (cs : List (Ptr × Obj)) (hne : q ≠ p) :
    findCell q (putCell p o cs) = findCell q cs := by
  induction cs with
  | nil => simp [findCell, putCell]
  | cons c rest ih =>
    obtain ⟨r, y⟩ := c
    by_cases hr : r = p
    · subst hr
      have : ¬ r = q := fun e => hne e.symm
      simp [findCell, putCell, this]
    · by_cases hrq : r = q
      · subst hrq
        simp [findCell, putCell, hr]
      · simp [findCell, putCell, hr, hrq, ih]

theorem findCell_dropCell_ne (p q : Ptr) (cs : List (Ptr × Obj)) (hne : q ≠ p) :
    findCell q (dropCell p cs) = findCell q cs := by
  induction cs with
  | nil => simp [findCell, dropCell]
  | cons c rest ih =>
    obtain ⟨r, y⟩ := c
    by_cases hr : r = p
    · subst hr
      have : ¬ r = q := fun e => hne e.symm
      simp [findCell, dropCell, this]
    · by_cases hrq : r = q
      · subst hrq
        simp [findCell, dropCell, hr]
      · simp [findCell, dropCell, hr, hrq, ih]

theorem findCell_le (n : Nat) (p : Ptr) (x : Obj) (cs : List (Ptr × Obj))
    (hwf : ∀ c ∈ cs, c.1 ≤ n) (h : findCell p cs = some x) : p ≤ n := by
  induction cs with
  | nil => simp [findCell] at h
  | cons c rest ih =>
    obtain ⟨q, y⟩ := c
    by_cases hq : q = p
    · subst hq
      exact hwf (q, y) (List.mem_cons_self _ _)
    · simp only [findCell, hq, if_false] at h
      exact ih (fun c hc => hwf c (List.mem_cons_of_mem _ hc)) h

theorem findCell_ne_null (p : Ptr) (x : Obj) (cs : List (Ptr × Obj))
    (hwf : ∀ c ∈ cs, c.1 ≠ NULL) (h : findCell p cs = some x) : p ≠ NULL := by
  induction cs with
  | nil => simp [findCell] at h
  | cons c rest ih =>
    obtain ⟨q, y⟩ := c
    by_cases hq : q = p
    · subst hq
      exact hwf (q, y) (List.mem_cons_self _ _)
    · simp only [findCell, hq, if_false] at h
      exact ih (fun c hc => hwf c (List.mem_cons_of_mem _ hc)) h

namespace Heap

theorem lookup_put_same (h : Heap) (p : Ptr) (o x : Obj) (hp : h.lookup p = some x) :
    (h.put p o).lookup p = some o :=
  findCell_putCell_same p o x h.cells hp

theorem lookup_put_ne (h : Heap) (p q : Ptr) (o : Obj) (hne : q ≠ p) :
    (h.put p o).lookup q = h.lookup q :=
  findCell_putCell_ne p q o h.cells hne

theorem store_of_lookup (h : Heap) (p : Ptr) (o x : Obj) (hp : h.lookup p = some x) :
    h.store p o = .ok (h.put p o) := by
  simp [store, hp]

theorem getThread_of_lookup (h : Heap) (p : Ptr) (t : LogDHCPLogThread)
    (hp : h.lookup p = some (.thread t)) : h.getThread p = .ok t := by
  simp [getThread, hp]

theorem getMemBuffer_of_lookup (h : Heap) (p : Ptr) (b : MemBuffer)
    (hp : h.lookup p = some (.membuffer b)) : h.getMemBuffer p = .ok b := by
  simp [getMemBuffer, hp]

theorem getDHCPFileCtx_of_lookup (h : Heap) (p : Ptr) (c : LogDHCPFileCtx)
    (hp : h.lookup p = some (.dhcpctx c)) : h.getDHCPFileCtx p = .ok c := by
  simp [getDHCPFileCtx, hp]

theorem getOutputCtx_of_lookup (h : Heap) (p : Ptr) (o : OutputCtx)
    (hp : h.lookup p = some (.outputctx o)) : h.getOutputCtx p = .ok o := by
  simp [getOutputCtx, hp]

theorem getOutputJsonCtx_of_lookup (h : Heap) (p : Ptr) (j : OutputJsonCtx)
    (hp : h.lookup p = some (.jsonctx j)) : h.getOutputJsonCtx p = .ok j := by
  simp [getOutputJsonCtx, hp]

theorem getLogFileCtx_of_lookup (h : Heap) (p : Ptr) (f : LogFileCtx)
    (hp : h.lookup p = some (.filectx f)) : h.getLogFileCtx p = .ok f := by
  simp [getLogFileCtx, hp]

theorem lookup_le (h : Heap) (hwf : h.WF) (p : Ptr) (x : Obj) (hp : h.lookup p = some x) :
    p ≤ h.next :=
  findCell_le h.next p x h.cells (fun c hc => (hwf.1 c hc).2) hp

theorem lookup_fresh (h : Heap) (hwf : h.WF) (p : Nat) (hp : h.next < p) :
    h.lookup p = none := by
  cases hl : h.lookup p with
  | none => rfl
  | some x =>
    have : @LE.le Nat _ p h.next := lookup_le h hwf p x hl
    omega

theorem lookup_ne_null (h : Heap) (hwf : h.WF) (p : Ptr) (x : Obj)
    (hp : h.lookup p = some x) : p ≠ NULL :=
  findCell_ne_null p x h.cells (fun c hc => (hwf.1 c hc).1) hp

end Heap

/-! ## The logging path -/

theorem Ready.buffer_ne_file_ctx {w : World} {td : Ptr} {thread : LogDHCPLogThread}
    {ctx : LogDHCPFileCtx} {buf : MemBuffer} {fc : LogFileCtx}
    (hr : Ready w td thread ctx buf fc) : thread.file_ctx ≠ thread.buffer := by
  intro e
  have h3 := hr.2.2.1
  have h4 := hr.2.2.2
  rw [e, h3] at h4
  simp at h4

/-- The logging path: filter accepts, the header is created. -/
theorem JsonDHCPLogger_logged (E : Env) (w : World) (td : Ptr) (thread : LogDHCPLogThread)
    (ctx : LogDHCPFileCtx) (buf : MemBuffer) (fc : LogFileCtx) (p : Packet) (f : Flow)
    (tx : Tx) (js : JsonBuilder)
    (hr : Ready w td thread ctx buf fc)
    (hfilter : E.rs_dhcp_logger_do_log ctx.rs_logger tx = true)
    (hhdr : E.CreateEveHeader p 0 "dhcp" = some js) :
    JsonDHCPLogger E td p f tx w
      = .ok (TM_ECODE_OK, loggedWorld E w thread ctx buf fc p f tx js) := by
  have hne := hr.buffer_ne_file_ctx
  obtain ⟨h1, h2, h3, h4⟩ := hr
  have e1 := Heap.getThread_of_lookup _ _ _ h1
  have e2 := Heap.getDHCPFileCtx_of_lookup _ _ _ h2
  have e3 := Heap.getMemBuffer_of_lookup _ _ _ h3
  have e4 := Heap.store_of_lookup _ _ (.membuffer (MemBufferReset buf)) _ h3
  have h5 : (w.heap.put thread.buffer (.membuffer (MemBufferReset buf))).lookup
      thread.file_ctx = some (.filectx fc) := by
    rw [Heap.lookup_put_ne _ _ _ _ hne]; exact h4
  have h6 := Heap.lookup_put_same _ _ (.membuffer (MemBufferReset buf)) _ h3
  have e5 := Heap.getLogFileCtx_of_lookup _ _ _ h5
  have e6 := Heap.getMemBuffer_of_lookup _ _ _ h6
  have h7 : ∀ o, ((w.heap.put thread.buffer (.membuffer (MemBufferReset buf))).put
      thread.file_ctx o).lookup thread.buffer = some (.membuffer (MemBufferReset buf)) := by
    intro o
    rw [Heap.lookup_put_ne _ _ _ _ (Ne.symm hne)]; exact h6
  simp only [JsonDHCPLogger, World.call, World.withHeap, e1, e2, e3, e4, e5, e6, hfilter,
    hhdr, bind, Except.bind, pure, Except.pure, Bool.not_true, Bool.false_eq_true, if_false,
    Heap.store_of_lookup _ _ _ _ h5, Heap.store_of_lookup _ _ _ _ (h7 _)]
  simp [loggedWorld, loggedCalls, document]

/-- The path on which the filter rejects the transaction. -/
theorem JsonDHCPLogger_skipped (E : Env) (w : World) (td : Ptr) (thread : LogDHCPLogThread)
    (ctx : LogDHCPFileCtx) (buf : MemBuffer) (fc : LogFileCtx) (p : Packet) (f : Flow)
    (tx : Tx)
    (hr : Ready w td thread ctx buf fc)
    (hfilter : E.rs_dhcp_logger_do_log ctx.rs_logger tx = false) :
    JsonDHCPLogger E td p f tx w
      = .ok (TM_ECODE_OK, w.call (.rs_dhcp_logger_do_log ctx.rs_logger tx)) := by
  obtain ⟨h1, h2, _, _⟩ := hr
  have e1 := Heap.getThread_of_lookup _ _ _ h1
  have e2 := Heap.getDHCPFileCtx_of_lookup _ _ _ h2
  simp [JsonDHCPLogger, e1, e2, hfilter, bind, Except.bind, pure, Except.pure]

/-- The path on which the filter accepts the transaction and no header can be created. -/
theorem JsonDHCPLogger_no_header (E : Env) (w : World) (td : Ptr)
    (thread : LogDHCPLogThread) (ctx : LogDHCPFileCtx) (buf : MemBuffer) (fc : LogFileCtx)
    (p : Packet) (f : Flow) (tx : Tx)
    (hr : Ready w td thread ctx buf fc)
    (hfilter : E.rs_dhcp_logger_do_log ctx.rs_logger tx = true)
    (hhdr : E.CreateEveHeader p 0 "dhcp" = none) :
    JsonDHCPLogger E td p f tx w
      = .ok (TM_ECODE_FAILED,
          (w.call (.rs_dhcp_logger_do_log ctx.rs_logger tx)).call
            (.CreateEveHeader p 0 "dhcp")) := by
  obtain ⟨h1, h2, _, _⟩ := hr
  have e1 := Heap.getThread_of_lookup _ _ _ h1
  have e2 := Heap.getDHCPFileCtx_of_lookup _ _ _ h2
  simp [JsonDHCPLogger, e1, e2, hfilter, hhdr, bind, Except.bind, pure, Except.pure]

/-- A pass through the logging path leaves the thread state in `Ready`, with the buffer
and the sink as `OutputJsonBuilderBuffer` left them. -/
theorem Ready.after_logged (E : Env) {w : World} {td : Ptr} {thread : LogDHCPLogThread}
    {ctx : LogDHCPFileCtx} {buf : MemBuffer} {fc : LogFileCtx} (p : Packet) (f : Flow)
    (tx : Tx) (js : JsonBuilder) (hr : Ready w td thread ctx buf fc) :
    Ready (loggedWorld E w thread ctx buf fc p f tx js) td thread ctx
      (E.OutputJsonBuilderBuffer (document E ctx p f tx js) fc (MemBufferReset buf)).2.2
      (E.OutputJsonBuilderBuffer (document E ctx p f tx js) fc (MemBufferReset buf)).2.1 := by
  have hne := hr.buffer_ne_file_ctx
  obtain ⟨h1, h2, h3, h4⟩ := hr
  have n1 : td ≠ thread.buffer := by
    intro e; rw [e, h3] at h1; simp at h1
  have n2 : td ≠ thread.file_ctx := by
    intro e; rw [e, h4] at h1; simp at h1
  have n3 : thread.dhcplog_ctx ≠ thread.buffer := by
    intro e; rw [e, h3] at h2; simp at h2
  have n4 : thread.dhcplog_ctx ≠ thread.file_ctx := by
    intro e; rw [e, h4] at h2; simp at h2
  have h6 := Heap.lookup_put_same _ _ (.membuffer (MemBufferReset buf)) _ h3
  have h5 : (w.heap.put thread.buffer (.membuffer (MemBufferReset buf))).lookup
      thread.file_ctx = some (.filectx fc) := by
    rw [Heap.lookup_put_ne _ _ _ _ hne]; exact h4
  have h7 : ∀ o, ((w.heap.put thread.buffer (.membuffer (MemBufferReset buf))).put
      thread.file_ctx o).lookup thread.buffer = some (.membuffer (MemBufferReset buf)) := by
    intro o
    rw [Heap.lookup_put_ne _ _ _ _ (Ne.symm hne)]; exact h6
  refine ⟨?_, ?_, ?_, ?_⟩
  · simp only [DHCPLog.loggedWorld]
    rw [Heap.lookup_put_ne _ _ _ _ n1, Heap.lookup_put_ne _ _ _ _ n2,
      Heap.lookup_put_ne _ _ _ _ n1]
    exact h1
  · simp only [DHCPLog.loggedWorld]
    rw [Heap.lookup_put_ne _ _ _ _ n3, Heap.lookup_put_ne _ _ _ _ n4,
      Heap.lookup_put_ne _ _ _ _ n3]
    exact h2
  · simp only [DHCPLog.loggedWorld]
    exact Heap.lookup_put_same _ _ _ _ (h7 _)
  · simp only [DHCPLog.loggedWorld]
    rw [Heap.lookup_put_ne _ _ _ _ hne]
    exact Heap.lookup_put_same _ _ _ _ h5

/-! ## The claims about `JsonDHCPLogger` -/

/-- C1: when the filter predicate rejects the transaction, `JsonDHCPLogger` returns
`TM_ECODE_OK` and does nothing else: the heap (the buffer and the sink with it) and the
registry are as they were, and the only external call is the one of the filter, so no
envelope is created and the encoder is not invoked. Whatever the transaction, the call of
the filter is the first external call. -/
theorem JsonDHCPLogger_filter_rejects (E : Env) (w : World) (td : Ptr)
    (thread : LogDHCPLogThread) (ctx : LogDHCPFileCtx) (buf : MemBuffer) (fc : LogFileCtx)
    (p : Packet) (f : Flow) (tx : Tx)
    (hr : Ready w td thread ctx buf fc)
    (hfilter : E.rs_dhcp_logger_do_log ctx.rs_logger tx = false) :
    (∃ w', JsonDHCPLogger E td p f tx w = .ok (TM_ECODE_OK, w') ∧
      w'.heap = w.heap ∧ w'.registry = w.registry ∧
      w'.trace = w.trace ++ [.rs_dhcp_logger_do_log ctx.rs_logger tx] ∧
      w'.heap.lookup thread.buffer = some (.membuffer buf) ∧
      w'.heap.lookup thread.file_ctx = some (.filectx fc)) ∧
    (∀ tx2 : Tx, ∃ c w' rest, JsonDHCPLogger E td p f tx2 w = .ok (c, w') ∧
      w'.trace = w.trace ++ .rs_dhcp_logger_do_log ctx.rs_logger tx2 :: rest) := by
  refine ⟨⟨_, JsonDHCPLogger_skipped E w td thread ctx buf fc p f tx hr hfilter,
    rfl, rfl, rfl, hr.2.2.1, hr.2.2.2⟩, ?_⟩
  intro tx2
  cases hf : E.rs_dhcp_logger_do_log ctx.rs_logger tx2 with
  | false =>
    exact ⟨_, _, [], JsonDHCPLogger_skipped E w td thread ctx buf fc p f tx2 hr hf, rfl⟩
  | true =>
    cases hh : E.CreateEveHeader p 0 "dhcp" with
    | none =>
      refine ⟨_, _, [.CreateEveHeader p 0 "dhcp"],
        JsonDHCPLogger_no_header E w td thread ctx buf fc p f tx2 hr hf hh, ?_⟩
      simp [World.call]
    | some js =>
      exact ⟨_, _, (loggedCalls E thread ctx p f tx2 js).tail,
        JsonDHCPLogger_logged E w td thread ctx buf fc p f tx2 js hr hf hh, rfl⟩

/-- C1 at a concrete input: transaction `2` is rejected by the sample filter. -/
theorem JsonDHCPLogger_filter_rejects_witness :
    Ready worldReady 6 sampleThread sampleCtx ⟨65535, []⟩ ⟨[]⟩ ∧
    sampleEnv.rs_dhcp_logger_do_log 1007 2 = false ∧
    ∃ w', JsonDHCPLogger sampleEnv 6 1 1 2 worldReady = .ok (TM_ECODE_OK, w') ∧
      w'.heap = worldReady.heap ∧ w'.registry = worldReady.registry ∧
      w'.trace = worldReady.trace ++ [.rs_dhcp_logger_do_log 1007 2] ∧
      w'.heap.lookup 7 = some (.membuffer ⟨65535, []⟩) ∧
      w'.heap.lookup 1 = some (.filectx ⟨[]⟩) :=
  ⟨by decide, by decide,
    (JsonDHCPLogger_filter_rejects sampleEnv worldReady 6 sampleThread sampleCtx
      ⟨65535, []⟩ ⟨[]⟩ 1 1 2 (by decide) (by decide)).1⟩

/-- C2: in `Ready`, when the filter accepts the transaction, the header is created and the
encoder succeeds, `JsonDHCPLogger` returns `TM_ECODE_OK` and makes exactly one sink write,
one call of `OutputJsonBuilderBuffer` on the thread's own sink handle and buffer; its
document is the `dhcp` header with the common settings applied, as the encoder left it. The
sink and the buffer are afterwards what that one call made of them. -/
theorem JsonDHCPLogger_writes_one_document (E : Env) (w : World) (td : Ptr)
    (thread : LogDHCPLogThread) (ctx : LogDHCPFileCtx) (buf : MemBuffer) (fc : LogFileCtx)
    (p : Packet) (f : Flow) (tx : Tx) (js : JsonBuilder)
    (hr : Ready w td thread ctx buf fc)
    (hfilter : E.rs_dhcp_logger_do_log ctx.rs_logger tx = true)
    (hhdr : E.CreateEveHeader p 0 "dhcp" = some js)
    (_henc : (E.rs_dhcp_logger_log ctx.rs_logger tx
      (E.EveAddCommonOptions ctx.cfg p f js)).1 = true) :
    ∃ w', JsonDHCPLogger E td p f tx w = .ok (TM_ECODE_OK, w') ∧
      w'.trace = w.trace ++
        [ .rs_dhcp_logger_do_log ctx.rs_logger tx,
          .CreateEveHeader p 0 "dhcp",
          .EveAddCommonOptions ctx.cfg p f js,
          .rs_dhcp_logger_log ctx.rs_logger tx (E.EveAddCommonOptions ctx.cfg p f js),
          .MemBufferReset thread.buffer,
          .OutputJsonBuilderBuffer
            (E.rs_dhcp_logger_log ctx.rs_logger tx (E.EveAddCommonOptions ctx.cfg p f js)).2
            thread.file_ctx thread.buffer,
          .jb_free
            (E.rs_dhcp_logger_log ctx.rs_logger tx
              (E.EveAddCommonOptions ctx.cfg p f js)).2 ] ∧
      ((w'.trace.drop w.trace.length).filter Event.isSinkWrite).length = 1 ∧
      w'.heap.lookup thread.file_ctx = some (.filectx
        (E.OutputJsonBuilderBuffer (document E ctx p f tx js) fc (MemBufferReset buf)).2.1) ∧
      w'.heap.lookup thread.buffer = some (.membuffer
        (E.OutputJsonBuilderBuffer (document E ctx p f tx js) fc (MemBufferReset buf)).2.2) := by
  have hr2 := hr.after_logged E p f tx js
  refine ⟨_, JsonDHCPLogger_logged E w td thread ctx buf fc p f tx js hr hfilter hhdr,
    rfl, ?_, hr2.2.2.2, hr2.2.2.1⟩
  simp [loggedWorld, loggedCalls, Event.isSinkWrite]

/-- C2 at a concrete input: transaction `1` of packet `1` in the sample environment, whose
encoder appends `dhcp_type: offer`. -/
theorem JsonDHCPLogger_writes_one_document_witness :
    Ready worldReady 6 sampleThread sampleCtx ⟨65535, []⟩ ⟨[]⟩ ∧
    sampleEnv.rs_dhcp_logger_do_log 1007 1 = true ∧
    sampleEnv.CreateEveHeader 1 0 "dhcp" = some sampleHeader ∧
    document sampleEnv sampleCtx 1 1 1 sampleHeader =
      ⟨[("timestamp", "t0"), ("event_type", "dhcp"), ("metadata", "m0"),
        ("dhcp_type", "offer")]⟩ ∧
    ∃ w', JsonDHCPLogger sampleEnv 6 1 1 1 worldReady = .ok (TM_ECODE_OK, w') ∧
      ((w'.trace.drop worldReady.trace.length).filter Event.isSinkWrite).length = 1 ∧
      w'.heap.lookup 1 = some (.filectx
        (sampleEnv.OutputJsonBuilderBuffer (document sampleEnv sampleCtx 1 1 1 sampleHeader)
          ⟨[]⟩ (MemBufferReset ⟨65535, []⟩)).2.1) :=
  ⟨by decide, by decide, by decide, by decide,
    (JsonDHCPLogger_writes_one_document sampleEnv worldReady 6 sampleThread sampleCtx
      ⟨65535, []⟩ ⟨[]⟩ 1 1 1 sampleHeader (by decide) (by decide) (by decide)
      (by decide)).imp (fun _ h => ⟨h.1, h.2.2.1, h.2.2.2.1⟩)⟩

/-- C3 fails as stated: transaction `101` passes the sample filter and the sample encoder
signals failure for it, yet `JsonDHCPLogger` returns `TM_ECODE_OK`, the code it returns on
success, and `OutputJsonBuilderBuffer` is invoked: the sink receives the envelope as the
encoder left it. -/
theorem JsonDHCPLogger_encode_failure_counterexample :
    sampleEnv.rs_dhcp_logger_do_log 1007 101 = true ∧
    sampleEnv.CreateEveHeader 1 0 "dhcp" = some sampleHeader ∧
    (sampleEnv.rs_dhcp_logger_log 1007 101
      (sampleEnv.EveAddCommonOptions sampleCtx.cfg 1 1 sampleHeader)).1 = false ∧
    ∃ w', JsonDHCPLogger sampleEnv 6 1 1 101 worldReady = .ok (TM_ECODE_OK, w') ∧
      Event.OutputJsonBuilderBuffer
        ⟨[("timestamp", "t0"), ("event_type", "dhcp"), ("metadata", "m0")]⟩ 1 7 ∈ w'.trace ∧
      w'.heap.lookup 1 = some (.filectx
        ⟨[serialise ⟨[("timestamp", "t0"), ("event_type", "dhcp"), ("metadata", "m0")]⟩]⟩) :=
  ⟨by decide, by decide, by decide,
    loggedWorld sampleEnv worldReady sampleThread sampleCtx ⟨65535, []⟩ ⟨[]⟩ 1 1 101
      sampleHeader,
    by rfl, by decide, by decide⟩

/-- C3 as amended: when the filter accepts the transaction, the header is created and the
encoder signals failure, `JsonDHCPLogger` does not abandon the event: it discards the
encoder's result, returns `TM_ECODE_OK` and makes the one sink write with the envelope as
the encoder left it. A following call on the same thread state with a transaction that
encodes successfully returns `TM_ECODE_OK` and writes its one document. -/
theorem JsonDHCPLogger_encode_failure_ignored (E : Env) (w : World) (td : Ptr)
    (thread : LogDHCPLogThread) (ctx : LogDHCPFileCtx) (buf : MemBuffer) (fc : LogFileCtx)
    (p : Packet) (f : Flow) (tx : Tx) (js : JsonBuilder)
    (p2 : Packet) (f2 : Flow) (tx2 : Tx) (js2 : JsonBuilder)
    (hr : Ready w td thread ctx buf fc)
    (hfilter : E.rs_dhcp_logger_do_log ctx.rs_logger tx = true)
    (hhdr : E.CreateEveHeader p 0 "dhcp" = some js)
    (_henc : (E.rs_dhcp_logger_log ctx.rs_logger tx
      (E.EveAddCommonOptions ctx.cfg p f js)).1 = false)
    (hfilter2 : E.rs_dhcp_logger_do_log ctx.rs_logger tx2 = true)
    (hhdr2 : E.CreateEveHeader p2 0 "dhcp" = some js2)
    (_henc2 : (E.rs_dhcp_logger_log ctx.rs_logger tx2
      (E.EveAddCommonOptions ctx.cfg p2 f2 js2)).1 = true) :
    ∃ w1 w2 fc1 buf1,
      JsonDHCPLogger E td p f tx w = .ok (TM_ECODE_OK, w1) ∧
      w1.trace = w.trace ++
        [ .rs_dhcp_logger_do_log ctx.rs_logger tx,
          .CreateEveHeader p 0 "dhcp",
          .EveAddCommonOptions ctx.cfg p f js,
          .rs_dhcp_logger_log ctx.rs_logger tx (E.EveAddCommonOptions ctx.cfg p f js),
          .MemBufferReset thread.buffer,
          .OutputJsonBuilderBuffer (document E ctx p f tx js) thread.file_ctx thread.buffer,
          .jb_free (document E ctx p f tx js) ] ∧
      (fc1, buf1) =
        (E.OutputJsonBuilderBuffer (document E ctx p f tx js) fc (MemBufferReset buf)).2 ∧
      w1.heap.lookup thread.file_ctx = some (.filectx fc1) ∧
      JsonDHCPLogger E td p2 f2 tx2 w1 = .ok (TM_ECODE_OK, w2) ∧
      w2.trace = w1.trace ++
        [ .rs_dhcp_logger_do_log ctx.rs_logger tx2,
          .CreateEveHeader p2 0 "dhcp",
          .EveAddCommonOptions ctx.cfg p2 f2 js2,
          .rs_dhcp_logger_log ctx.rs_logger tx2 (E.EveAddCommonOptions ctx.cfg p2 f2 js2),
          .MemBufferReset thread.buffer,
          .OutputJsonBuilderBuffer (document E ctx p2 f2 tx2 js2) thread.file_ctx
            thread.buffer,
          .jb_free (document E ctx p2 f2 tx2 js2) ] ∧
      w2.heap.lookup thread.file_ctx = some (.filectx
        (E.OutputJsonBuilderBuffer (document E ctx p2 f2 tx2 js2) fc1
          (MemBufferReset buf1)).2.1) := by
  have hr1 := hr.after_logged E p f tx js
  have hr2 := hr1.after_logged E p2 f2 tx2 js2
  exact ⟨_, _, _, _, JsonDHCPLogger_logged E w td thread ctx buf fc p f tx js hr hfilter hhdr,
    rfl, rfl, hr1.2.2.2,
    JsonDHCPLogger_logged E _ td thread ctx _ _ p2 f2 tx2 js2 hr1 hfilter2 hhdr2,
    rfl, hr2.2.2.2⟩

/-- C3 as amended, at a concrete input: transaction `101` (the encoder fails), then
transaction `1` (the encoder succeeds), in the sample environment. -/
theorem JsonDHCPLogger_encode_failure_ignored_witness :
    Ready worldReady 6 sampleThread sampleCtx ⟨65535, []⟩ ⟨[]⟩ ∧
    (sampleEnv.rs_dhcp_logger_log 1007 101
      (sampleEnv.EveAddCommonOptions sampleCtx.cfg 1 1 sampleHeader)).1 = false ∧
    (sampleEnv.rs_dhcp_logger_log 1007 1
      (sampleEnv.EveAddCommonOptions sampleCtx.cfg 1 1 sampleHeader)).1 = true ∧
    ∃ w1 w2, JsonDHCPLogger sampleEnv 6 1 1 101 worldReady = .ok (TM_ECODE_OK, w1) ∧
      JsonDHCPLogger sampleEnv 6 1 1 1 w1 = .ok (TM_ECODE_OK, w2) :=
  ⟨by decide, by decide, by decide,
    match JsonDHCPLogger_encode_failure_ignored sampleEnv worldReady 6 sampleThread
      sampleCtx ⟨65535, []⟩ ⟨[]⟩ 1 1 101 sampleHeader 1 1 1 sampleHeader (by decide)
      (by decide) (by decide) (by decide) (by decide) (by decide) (by decide) with
    | ⟨w1, w2, _, _, h1, _, _, _, h2, _⟩ => ⟨w1, w2, h1, h2⟩⟩

/-- C4 fails as stated: the buffer of `worldReady` is empty; after transaction `1` is
logged it holds the 58 bytes of that document, and it still holds them after a following
call that the filter rejects. -/
theorem JsonDHCPLogger_buffer_counterexample :
    worldReady.heap.getMemBuffer 7 = .ok ⟨65535, []⟩ ∧
    ∃ w1 w2 b,
      JsonDHCPLogger sampleEnv 6 1 1 1 worldReady = .ok (TM_ECODE_OK, w1) ∧
      w1.heap.getMemBuffer 7 = .ok b ∧ b.offset = 58 ∧
      JsonDHCPLogger sampleEnv 6 1 1 2 w1 = .ok (TM_ECODE_OK, w2) ∧
      w2.heap.getMemBuffer 7 = .ok b :=
  ⟨by rfl,
    loggedWorld sampleEnv worldReady sampleThread sampleCtx ⟨65535, []⟩ ⟨[]⟩ 1 1 1
      sampleHeader,
    (loggedWorld sampleEnv worldReady sampleThread sampleCtx ⟨65535, []⟩ ⟨[]⟩ 1 1 1
      sampleHeader).call (.rs_dhcp_logger_do_log 1007 2),
    ⟨65535, serialise (document sampleEnv sampleCtx 1 1 1 sampleHeader)⟩,
    by rfl, by rfl, by decide, by rfl, by rfl⟩

/-- C4 as amended: on the logging path the buffer is reset to logical length zero right
before `OutputJsonBuilderBuffer` serialises into it, so every document is serialised into
an empty buffer, and after the call the buffer is what that one call of
`OutputJsonBuilderBuffer` left; when the filter rejects the transaction or no header can
be created, the buffer is left exactly as it was. -/
theorem JsonDHCPLogger_buffer_reset_before_write (E : Env) (w : World) (td : Ptr)
    (thread : LogDHCPLogThread) (ctx : LogDHCPFileCtx) (buf : MemBuffer) (fc : LogFileCtx)
    (p : Packet) (f : Flow) (tx : Tx)
    (hr : Ready w td thread ctx buf fc) :
    ∃ c w', JsonDHCPLogger E td p f tx w = .ok (c, w') ∧
      ((E.rs_dhcp_logger_do_log ctx.rs_logger tx = true ∧
          ∃ js, E.CreateEveHeader p 0 "dhcp" = some js ∧
            (MemBufferReset buf).offset = 0 ∧
            (MemBufferReset buf).size = buf.size ∧
            w'.heap.lookup thread.buffer = some (.membuffer
              (E.OutputJsonBuilderBuffer (document E ctx p f tx js) fc
                (MemBufferReset buf)).2.2)) ∨
        ((E.rs_dhcp_logger_do_log ctx.rs_logger tx = false ∨
            E.CreateEveHeader p 0 "dhcp" = none) ∧
          w'.heap.lookup thread.buffer = some (.membuffer buf))) := by
  cases hf : E.rs_dhcp_logger_do_log ctx.rs_logger tx with
  | false =>
    exact ⟨_, _, JsonDHCPLogger_skipped E w td thread ctx buf fc p f tx hr hf,
      Or.inr ⟨Or.inl rfl, hr.2.2.1⟩⟩
  | true =>
    cases hh : E.CreateEveHeader p 0 "dhcp" with
    | none =>
      exact ⟨_, _, JsonDHCPLogger_no_header E w td thread ctx buf fc p f tx hr hf hh,
        Or.inr ⟨Or.inr rfl, hr.2.2.1⟩⟩
    | some js =>
      exact ⟨_, _, JsonDHCPLogger_logged E w td thread ctx buf fc p f tx js hr hf hh,
        Or.inl ⟨rfl, js, rfl, rfl, rfl, (hr.after_logged E p f tx js).2.2.1⟩⟩

/-- C4 as amended, at a concrete input: transaction `1` in the sample environment. -/
theorem JsonDHCPLogger_buffer_reset_before_write_witness :
    Ready worldReady 6 sampleThread sampleCtx ⟨65535, []⟩ ⟨[]⟩ ∧
    ∃ c w', JsonDHCPLogger sampleEnv 6 1 1 1 worldReady = .ok (c, w') :=
  ⟨by decide,
    match JsonDHCPLogger_buffer_reset_before_write sampleEnv worldReady 6 sampleThread
      sampleCtx ⟨65535, []⟩ ⟨[]⟩ 1 1 1 (by decide) with
    | ⟨c, w', h, _⟩ => ⟨c, w', h⟩⟩

/-- C5 fails as stated: with a sink whose flush fails (`OutputJsonBuilderBuffer` reports
`-1`), `JsonDHCPLogger` returns `TM_ECODE_OK`, the very result it returns when the flush
succeeds. -/
theorem JsonDHCPLogger_flush_failure_counterexample :
    (brokenSinkEnv.OutputJsonBuilderBuffer
      (document brokenSinkEnv sampleCtx 1 1 1 sampleHeader) ⟨[]⟩
      (MemBufferReset ⟨65535, []⟩)).1 = -1 ∧
    (JsonDHCPLogger brokenSinkEnv 6 1 1 1 worldReady).map Prod.fst = .ok TM_ECODE_OK ∧
    (JsonDHCPLogger sampleEnv 6 1 1 1 worldReady).map Prod.fst = .ok TM_ECODE_OK :=
  ⟨by decide, by rfl, by rfl⟩

/-- C5 as amended: when the filter accepts the transaction, the header is created and the
flush fails (`OutputJsonBuilderBuffer` reports a result other than `0`), `JsonDHCPLogger`
discards that result and returns `TM_ECODE_OK`, as it does when the flush succeeds: the
return value does not report the flush failure. -/
theorem JsonDHCPLogger_flush_failure_not_reported (E : Env) (w : World) (td : Ptr)
    (thread : LogDHCPLogThread) (ctx : LogDHCPFileCtx) (buf : MemBuffer) (fc : LogFileCtx)
    (p : Packet) (f : Flow) (tx : Tx) (js : JsonBuilder)
    (hr : Ready w td thread ctx buf fc)
    (hfilter : E.rs_dhcp_logger_do_log ctx.rs_logger tx = true)
    (hhdr : E.CreateEveHeader p 0 "dhcp" = some js)
    (_hflush : (E.OutputJsonBuilderBuffer (document E ctx p f tx js) fc
      (MemBufferReset buf)).1 ≠ 0) :
    ∃ w', JsonDHCPLogger E td p f tx w = .ok (TM_ECODE_OK, w') ∧
      Event.OutputJsonBuilderBuffer (document E ctx p f tx js) thread.file_ctx thread.buffer
        ∈ w'.trace :=
  ⟨_, JsonDHCPLogger_logged E w td thread ctx buf fc p f tx js hr hfilter hhdr, by
    simp [loggedWorld, loggedCalls]⟩

/-- C5 as amended, at a concrete input: transaction `1` with the sink whose flush fails. -/
theorem JsonDHCPLogger_flush_failure_not_reported_witness :
    Ready worldReady 6 sampleThread sampleCtx ⟨65535, []⟩ ⟨[]⟩ ∧
    (brokenSinkEnv.OutputJsonBuilderBuffer
      (document brokenSinkEnv sampleCtx 1 1 1 sampleHeader) ⟨[]⟩
      (MemBufferReset ⟨65535, []⟩)).1 ≠ 0 ∧
    ∃ w', JsonDHCPLogger brokenSinkEnv 6 1 1 1 worldReady = .ok (TM_ECODE_OK, w') ∧
      Event.OutputJsonBuilderBuffer (document brokenSinkEnv sampleCtx 1 1 1 sampleHeader)
        1 7 ∈ w'.trace :=
  ⟨by decide, by decide,
    JsonDHCPLogger_flush_failure_not_reported brokenSinkEnv worldReady 6 sampleThread
      sampleCtx ⟨65535, []⟩ ⟨[]⟩ 1 1 1 sampleHeader (by decide) (by decide) (by decide)
      (by decide)⟩

/-- C10: in `Ready`, `JsonDHCPLogger` returns `TM_ECODE_FAILED` if and only if the filter
accepts the transaction and `CreateEveHeader` returns `NULL`; in every other case it
returns `TM_ECODE_OK`. In the failing case the only external calls are the filter and
`CreateEveHeader` (the encoder is not invoked, the buffer is not reset) and the heap, the
buffer and the sink with it, is as it was. -/
theorem JsonDHCPLogger_failed_iff (E : Env) (w : World) (td : Ptr)
    (thread : LogDHCPLogThread) (ctx : LogDHCPFileCtx) (buf : MemBuffer) (fc : LogFileCtx)
    (p : Packet) (f : Flow) (tx : Tx)
    (hr : Ready w td thread ctx buf fc) :
    ∃ c w', JsonDHCPLogger E td p f tx w = .ok (c, w') ∧
      (c = TM_ECODE_FAILED ↔
        (E.rs_dhcp_logger_do_log ctx.rs_logger tx = true ∧
          E.CreateEveHeader p 0 "dhcp" = none)) ∧
      (c ≠ TM_ECODE_FAILED → c = TM_ECODE_OK) ∧
      (c = TM_ECODE_FAILED →
        w'.trace = w.trace ++
          [.rs_dhcp_logger_do_log ctx.rs_logger tx, .CreateEveHeader p 0 "dhcp"] ∧
        w'.heap = w.heap ∧
        w'.heap.lookup thread.buffer = some (.membuffer buf) ∧
        w'.heap.lookup thread.file_ctx = some (.filectx fc)) := by
  cases hf : E.rs_dhcp_logger_do_log ctx.rs_logger tx with
  | false =>
    refine ⟨_, _, JsonDHCPLogger_skipped E w td thread ctx buf fc p f tx hr hf, ?_, ?_, ?_⟩
    · simp
    · intro _; rfl
    · intro h; cases h
  | true =>
    cases hh : E.CreateEveHeader p 0 "dhcp" with
    | none =>
      refine ⟨_, _, JsonDHCPLogger_no_header E w td thread ctx buf fc p f tx hr hf hh,
        ?_, ?_, ?_⟩
      · simp
      · intro h; exact absurd rfl h
      · intro _
        refine ⟨?_, rfl, hr.2.2.1, hr.2.2.2⟩
        simp [World.call]
    | some js =>
      refine ⟨_, _, JsonDHCPLogger_logged E w td thread ctx buf fc p f tx js hr hf hh,
        ?_, ?_, ?_⟩
      · simp
      · intro _; rfl
      · intro h; cases h

/-- C10 at a concrete input: transaction `1` of packet `0`, for which the sample
environment creates no header. -/
theorem JsonDHCPLogger_failed_iff_witness :
    Ready worldReady 6 sampleThread sampleCtx ⟨65535, []⟩ ⟨[]⟩ ∧
    sampleEnv.CreateEveHeader 0 0 "dhcp" = none ∧
    JsonDHCPLogger sampleEnv 6 0 1 1 worldReady =
      .ok (TM_ECODE_FAILED,
        { worldReady with
          trace := worldReady.trace ++
            [.rs_dhcp_logger_do_log 1007 1, .CreateEveHeader 0 0 "dhcp"] }) ∧
    ∃ c w', JsonDHCPLogger sampleEnv 6 0 1 1 worldReady = .ok (c, w') ∧
      (c = TM_ECODE_FAILED ↔
        (sampleEnv.rs_dhcp_logger_do_log 1007 1 = true ∧
          sampleEnv.CreateEveHeader 0 0 "dhcp" = none)) :=
  ⟨by decide, by decide, by rfl,
    match JsonDHCPLogger_failed_iff sampleEnv worldReady 6 sampleThread sampleCtx
      ⟨65535, []⟩ ⟨[]⟩ 0 1 1 (by decide) with
    | ⟨c, w', h, hiff, _⟩ => ⟨c, w', h, hiff⟩⟩

/-! ## Construction and teardown: the paths of each function -/

theorem findCell_eq_none (p : Ptr) (cs : List (Ptr × Obj)) (h : p ∉ cs.map Prod.fst) :
    findCell p cs = none := by
  induction cs with
  | nil => rfl
  | cons c rest ih =>
    obtain ⟨q, y⟩ := c
    simp only [List.map_cons, List.mem_cons, not_or] at h
    have hq : ¬ q = p := fun e => h.1 e.symm
    simp only [findCell, hq, if_false]
    exact ih h.2

theorem dropCell_keys_sublist (p : Ptr) (cs : List (Ptr × Obj)) :
    ((dropCell p cs).map Prod.fst).Sublist (cs.map Prod.fst) := by
  induction cs with
  | nil => simp [dropCell]
  | cons c rest ih =>
    obtain ⟨q, y⟩ := c
    by_cases hq : q = p
    · simp [dropCell, hq]
    · simp only [dropCell, hq, if_false, List.map_cons]
      exact ih.cons₂ _

theorem findCell_dropCell_same (p : Ptr) (cs : List (Ptr × Obj))
    (hnd : (cs.map Prod.fst).Nodup) : findCell p (dropCell p cs) = none := by
  induction cs with
  | nil => rfl
  | cons c rest ih =>
    obtain ⟨q, y⟩ := c
    simp only [List.map_cons, List.nodup_cons] at hnd
    by_cases hq : q = p
    · subst hq
      simp only [dropCell, if_true]
      exact findCell_eq_none _ _ hnd.1
    · simp only [dropCell, hq, if_false, findCell]
      exact ih hnd.2

/-- Teardown of a thread state in `Ready`. -/
theorem JsonDHCPLogThreadDeinit_ready (w : World) (td : Ptr) (thread : LogDHCPLogThread)
    (ctx : LogDHCPFileCtx) (buf : MemBuffer) (fc : LogFileCtx)
    (hwf : w.heap.WF) (hr : Ready w td thread ctx buf fc) :
    JsonDHCPLogThreadDeinit td w
      = .ok (TM_ECODE_OK, w.withHeap
          { w.heap with
            cells := dropCell td (dropCell thread.buffer w.heap.cells)
            freed := w.heap.freed ++ [thread.buffer, td] }) := by
  obtain ⟨h1, _, h3, _⟩ := hr
  have n0 : td ≠ NULL := Heap.lookup_ne_null _ hwf _ _ h1
  have n1 : thread.buffer ≠ NULL := Heap.lookup_ne_null _ hwf _ _ h3
  have n2 : td ≠ thread.buffer := by
    intro e; rw [e, h3] at h1; simp at h1
  have e1 := Heap.getThread_of_lookup _ _ _ h1
  have h5 : findCell td (dropCell thread.buffer w.heap.cells) = some (.thread thread) := by
    rw [findCell_dropCell_ne _ _ _ n2]; exact h1
  have h3' : findCell thread.buffer w.heap.cells = some (.membuffer buf) := h3
  simp [JsonDHCPLogThreadDeinit, e1, n0, n1, Heap.free, Heap.lookup, h3', h5, bind,
    Except.bind, pure, Except.pure, World.withHeap]

/-- Thread initialisation when the buffer cannot be allocated. -/
theorem JsonDHCPLogThreadInit_no_buffer (E : Env) (w : World) (thread_id : Nat)
    (initdata data : Ptr)
    (hthread : w.heap.oom.headD false = false) (hinit : initdata ≠ NULL)
    (hbuf : w.heap.oom.tail.headD false = true) :
    JsonDHCPLogThreadInit E thread_id initdata data w
      = .ok (TM_ECODE_FAILED, data, w.withHeap
          { next := w.heap.next + 1
            cells := w.heap.cells
            freed := w.heap.freed ++ [w.heap.next + 1]
            oom := w.heap.oom.tail.tail }) := by
  simp [-List.headD_eq_head?_getD, JsonDHCPLogThreadInit, JsonDHCPLogThreadInit.error_exit, Heap.alloc, hthread, hinit,
    hbuf, Heap.getThread, Heap.store, Heap.lookup, Heap.put, Heap.free, findCell, putCell,
    dropCell, World.withHeap, bind, Except.bind, pure, Except.pure]

/-- Thread initialisation when the sink refuses a handle. -/
theorem JsonDHCPLogThreadInit_no_handle (E : Env) (w : World) (thread_id : Nat)
    (initdata data : Ptr) (octx : OutputCtx) (d : LogDHCPFileCtx)
    (hwf : w.heap.WF)
    (hthread : w.heap.oom.headD false = false)
    (hbuf : w.heap.oom.tail.headD false = false)
    (hinit : w.heap.lookup initdata = some (.outputctx octx))
    (hctx : w.heap.lookup octx.data = some (.dhcpctx d))
    (hsink : E.LogFileEnsureExists d.file_ctx thread_id = NULL) :
    JsonDHCPLogThreadInit E thread_id initdata data w
      = .ok (TM_ECODE_FAILED, data,
          { heap :=
              { next := w.heap.next + 2
                cells := w.heap.cells
                freed := w.heap.freed ++ [w.heap.next + 2, w.heap.next + 1]
                oom := w.heap.oom.tail.tail }
            trace := w.trace ++ [.LogFileEnsureExists d.file_ctx thread_id]
            registry := w.registry }) := by
  have n0 : initdata ≠ NULL := Heap.lookup_ne_null _ hwf _ _ hinit
  have l1 : @LE.le Nat _ initdata w.heap.next := Heap.lookup_le _ hwf _ _ hinit
  have l2 : @LE.le Nat _ octx.data w.heap.next := Heap.lookup_le _ hwf _ _ hctx
  have a1 : ¬ w.heap.next + 1 = (initdata : Nat) := by omega
  have a2 : ¬ w.heap.next + 1 + 1 = (initdata : Nat) := by omega
  have a3 : ¬ w.heap.next + 1 = (octx.data : Nat) := by omega
  have a4 : ¬ w.heap.next + 1 + 1 = (octx.data : Nat) := by omega
  have hinit' : findCell initdata w.heap.cells = some (.outputctx octx) := hinit
  have hctx' : findCell octx.data w.heap.cells = some (.dhcpctx d) := hctx
  simp [-List.headD_eq_head?_getD, JsonDHCPLogThreadInit, JsonDHCPLogThreadInit.error_exit, Heap.alloc, hthread, n0,
    hbuf, Heap.getThread, Heap.getOutputCtx, Heap.getDHCPFileCtx, Heap.store, Heap.lookup,
    Heap.put, Heap.free, findCell, putCell, dropCell, World.withHeap, World.call, bind,
    Except.bind, pure, Except.pure, a1, a2, a3, a4, hinit', hctx', hsink]

/-- Thread initialisation when everything succeeds. -/
theorem JsonDHCPLogThreadInit_ok (E : Env) (w : World) (thread_id : Nat)
    (initdata data : Ptr) (octx : OutputCtx) (d : LogDHCPFileCtx)
    (hwf : w.heap.WF)
    (hthread : w.heap.oom.headD false = false)
    (hbuf : w.heap.oom.tail.headD false = false)
    (hinit : w.heap.lookup initdata = some (.outputctx octx))
    (hctx : w.heap.lookup octx.data = some (.dhcpctx d))
    (hsink : E.LogFileEnsureExists d.file_ctx thread_id ≠ NULL) :
    JsonDHCPLogThreadInit E thread_id initdata data w
      = .ok (TM_ECODE_OK, w.heap.next + 1,
          { heap :=
              { next := w.heap.next + 2
                cells :=
                  (w.heap.next + 2, .membuffer ⟨E.JSON_OUTPUT_BUFFER_SIZE, []⟩) ::
                  (w.heap.next + 1, .thread ⟨octx.data, w.heap.next + 2,
                    E.LogFileEnsureExists d.file_ctx thread_id⟩) :: w.heap.cells
                freed := w.heap.freed
                oom := w.heap.oom.tail.tail }
            trace := w.trace ++ [.LogFileEnsureExists d.file_ctx thread_id]
            registry := w.registry }) := by
  have n0 : initdata ≠ NULL := Heap.lookup_ne_null _ hwf _ _ hinit
  have l1 : @LE.le Nat _ initdata w.heap.next := Heap.lookup_le _ hwf _ _ hinit
  have l2 : @LE.le Nat _ octx.data w.heap.next := Heap.lookup_le _ hwf _ _ hctx
  have a1 : ¬ w.heap.next + 1 = (initdata : Nat) := by omega
  have a2 : ¬ w.heap.next + 1 + 1 = (initdata : Nat) := by omega
  have a3 : ¬ w.heap.next + 1 = (octx.data : Nat) := by omega
  have a4 : ¬ w.heap.next + 1 + 1 = (octx.data : Nat) := by omega
  have hinit' : findCell initdata w.heap.cells = some (.outputctx octx) := hinit
  have hctx' : findCell octx.data w.heap.cells = some (.dhcpctx d) := hctx
  simp [-List.headD_eq_head?_getD, JsonDHCPLogThreadInit, Heap.alloc, hthread, n0,
    hbuf, Heap.getThread, Heap.getOutputCtx, Heap.getDHCPFileCtx, Heap.store, Heap.lookup,
    Heap.put, findCell, putCell, World.withHeap, World.call, bind,
    Except.bind, pure, Except.pure, a1, a2, a3, a4, hinit', hctx', hsink]

/-- Construction of the sub-logger when the first allocation fails. -/
theorem OutputDHCPLogInitSub_no_ctx (E : Env) (w : World) (conf : ConfNode)
    (parent_ctx : Ptr) (parent : OutputCtx)
    (hparent : w.heap.lookup parent_ctx = some (.outputctx parent))
    (h1 : w.heap.oom.headD false = true) :
    OutputDHCPLogInitSub E conf parent_ctx w
      = .ok (⟨NULL, false⟩, w.withHeap { w.heap with oom := w.heap.oom.tail }) := by
  have hparent' : findCell parent_ctx w.heap.cells = some (.outputctx parent) := hparent
  simp [-List.headD_eq_head?_getD, OutputDHCPLogInitSub, Heap.alloc, h1, Heap.getOutputCtx,
    Heap.lookup, hparent', World.withHeap, bind, Except.bind, pure, Except.pure]

/-- Construction of the sub-logger when the second allocation fails. -/
theorem OutputDHCPLogInitSub_no_output_ctx (E : Env) (w : World) (conf : ConfNode)
    (parent_ctx : Ptr) (parent : OutputCtx) (ajt : OutputJsonCtx)
    (hwf : w.heap.WF)
    (hparent : w.heap.lookup parent_ctx = some (.outputctx parent))
    (hajt : w.heap.lookup parent.data = some (.jsonctx ajt))
    (h1 : w.heap.oom.headD false = false)
    (h2 : w.heap.oom.tail.headD false = true) :
    OutputDHCPLogInitSub E conf parent_ctx w
      = .ok (⟨NULL, false⟩, w.withHeap
          { next := w.heap.next + 1
            cells := w.heap.cells
            freed := w.heap.freed ++ [w.heap.next + 1]
            oom := w.heap.oom.tail.tail }) := by
  have l2 : @LE.le Nat _ parent.data w.heap.next := Heap.lookup_le _ hwf _ _ hajt
  have a2 : ¬ w.heap.next + 1 = (parent.data : Nat) := by omega
  have hparent' : findCell parent_ctx w.heap.cells = some (.outputctx parent) := hparent
  have hajt' : findCell parent.data w.heap.cells = some (.jsonctx ajt) := hajt
  simp [-List.headD_eq_head?_getD, OutputDHCPLogInitSub, Heap.alloc, h1, h2,
    Heap.getOutputCtx, Heap.getOutputJsonCtx, Heap.getDHCPFileCtx, Heap.store, Heap.put,
    Heap.free, Heap.lookup, findCell, putCell, dropCell, hparent', hajt', a2,
    World.withHeap, bind, Except.bind, pure, Except.pure]

/-- Construction of the sub-logger when both allocations succeed. -/
theorem OutputDHCPLogInitSub_ok (E : Env) (w : World) (conf : ConfNode)
    (parent_ctx : Ptr) (parent : OutputCtx) (ajt : OutputJsonCtx)
    (hwf : w.heap.WF)
    (hparent : w.heap.lookup parent_ctx = some (.outputctx parent))
    (hajt : w.heap.lookup parent.data = some (.jsonctx ajt))
    (h1 : w.heap.oom.headD false = false)
    (h2 : w.heap.oom.tail.headD false = false) :
    OutputDHCPLogInitSub E conf parent_ctx w
      = .ok (⟨w.heap.next + 2, true⟩,
          { heap :=
              { next := w.heap.next + 2
                cells :=
                  (w.heap.next + 2,
                    .outputctx ⟨w.heap.next + 1, some .OutputDHCPLogDeInitCtxSub⟩) ::
                  (w.heap.next + 1,
                    .dhcpctx ⟨ajt.file_ctx, 0, E.rs_dhcp_logger_new conf, ajt.cfg⟩) ::
                  w.heap.cells
                freed := w.heap.freed
                oom := w.heap.oom.tail.tail }
            trace := w.trace ++
              [.rs_dhcp_logger_new conf, .AppLayerParserRegisterLogger IPPROTO_UDP ALPROTO_DHCP]
            registry := (IPPROTO_UDP, ALPROTO_DHCP) :: w.registry }) := by
  have l2 : @LE.le Nat _ parent.data w.heap.next := Heap.lookup_le _ hwf _ _ hajt
  have a2 : ¬ w.heap.next + 1 = (parent.data : Nat) := by omega
  have hparent' : findCell parent_ctx w.heap.cells = some (.outputctx parent) := hparent
  have hajt' : findCell parent.data w.heap.cells = some (.jsonctx ajt) := hajt
  simp [-List.headD_eq_head?_getD, OutputDHCPLogInitSub, AppLayerParserRegisterLogger,
    Heap.alloc, h1, h2, Heap.getOutputCtx, Heap.getOutputJsonCtx, Heap.getDHCPFileCtx,
    Heap.store, Heap.put, Heap.lookup, findCell, putCell, hparent', hajt', a2,
    World.withHeap, World.call, bind, Except.bind, pure, Except.pure]

/-- The sample worlds are the ones the functions of the file produce, in order:
construction of the sub-logger, then initialisation of a thread. -/
theorem sample_worlds_reached :
    OutputDHCPLogInitSub sampleEnv 7 3 worldParent = .ok (⟨5, true⟩, worldCtx) ∧
    JsonDHCPLogThreadInit sampleEnv 0 5 NULL worldCtx = .ok (TM_ECODE_OK, 6, worldReady) ∧
    worldParent.heap.WF ∧ worldCtx.heap.WF ∧ worldReady.heap.WF :=
  ⟨by rfl, by rfl, by decide, by decide, by decide⟩

/-! ## The claims about thread initialisation and teardown -/

/-- C6: when `JsonDHCPLogThreadInit` has allocated the thread-state record (at the fresh
address `next + 1`) and then either the buffer cannot be allocated, or the buffer is
allocated (at `next + 2`) and `LogFileEnsureExists` returns `NULL`, the call returns
`TM_ECODE_FAILED`, leaves `*data` as it was, and has released what it allocated: the live
cells are those from before the call, the addresses released by the call are the thread
record alone in the first case, the buffer and then the thread record in the second (each
once), and neither address is live afterwards. -/
theorem JsonDHCPLogThreadInit_failure_releases (E : Env) (w : World) (thread_id : Nat)
    (initdata data : Ptr)
    (hwf : w.heap.WF)
    (hthread : w.heap.oom.headD false = false)
    (hcase : (initdata ≠ NULL ∧ w.heap.oom.tail.headD false = true) ∨
      (w.heap.oom.tail.headD false = false ∧
        ∃ octx d, w.heap.lookup initdata = some (.outputctx octx) ∧
          w.heap.lookup octx.data = some (.dhcpctx d) ∧
          E.LogFileEnsureExists d.file_ctx thread_id = NULL)) :
    ∃ w', JsonDHCPLogThreadInit E thread_id initdata data w
        = .ok (TM_ECODE_FAILED, data, w') ∧
      w'.heap.cells = w.heap.cells ∧
      w'.heap.freed = w.heap.freed ++
        (if w.heap.oom.tail.headD false then [w.heap.next + 1]
         else [w.heap.next + 2, w.heap.next + 1]) ∧
      w'.heap.lookup (w.heap.next + 1) = none ∧
      w'.heap.lookup (w.heap.next + 2) = none := by
  have f1 : w.heap.lookup (w.heap.next + 1) = none :=
    Heap.lookup_fresh _ hwf _ (by omega)
  have f2 : w.heap.lookup (w.heap.next + 2) = none :=
    Heap.lookup_fresh _ hwf _ (by omega)
  rcases hcase with ⟨hinit, hbuf⟩ | ⟨hbuf, octx, d, hinit, hctx, hsink⟩
  · refine ⟨_, JsonDHCPLogThreadInit_no_buffer E w thread_id initdata data hthread hinit
      hbuf, rfl, ?_, f1, f2⟩
    rw [hbuf]; rfl
  · refine ⟨_, JsonDHCPLogThreadInit_no_handle E w thread_id initdata data octx d hwf
      hthread hbuf hinit hctx hsink, rfl, ?_, f1, f2⟩
    rw [hbuf]; rfl

/-- C6 at two concrete inputs: a sink that refuses a handle, and a script on which the
second allocation request (the buffer) fails. -/
theorem JsonDHCPLogThreadInit_failure_releases_witness :
    (worldCtx.heap.WF ∧ noHandleEnv.LogFileEnsureExists 1 0 = NULL ∧
      ∃ w', JsonDHCPLogThreadInit noHandleEnv 0 5 NULL worldCtx
          = .ok (TM_ECODE_FAILED, NULL, w') ∧
        w'.heap.cells = worldCtx.heap.cells ∧ w'.heap.freed = [7, 6]) ∧
    ((worldCtxScript [false, true]).heap.WF ∧
      ∃ w', JsonDHCPLogThreadInit sampleEnv 0 5 NULL (worldCtxScript [false, true])
          = .ok (TM_ECODE_FAILED, NULL, w') ∧
        w'.heap.cells = worldCtx.heap.cells ∧ w'.heap.freed = [6]) :=
  ⟨⟨by decide, by decide,
    (JsonDHCPLogThreadInit_failure_releases noHandleEnv worldCtx 0 5 NULL (by decide)
      (by decide) (Or.inr ⟨by decide, ⟨4, some .OutputDHCPLogDeInitCtxSub⟩,
        ⟨1, 0, 1007, ⟨true, 0⟩⟩, by decide, by decide, by decide⟩)).imp
      (fun _ h => ⟨h.1, h.2.1, h.2.2.1⟩)⟩,
   ⟨by decide,
    (JsonDHCPLogThreadInit_failure_releases sampleEnv (worldCtxScript [false, true]) 0 5
      NULL (by decide) (by decide) (Or.inl ⟨by decide, by decide⟩)).imp
      (fun _ h => ⟨h.1, h.2.1, h.2.2.1⟩)⟩⟩

/-- C7 fails as stated: tearing down the thread state of `worldReady` releases the buffer
`7` and the thread record `6`; a second call on the same state is not a no-op and does not
return `TM_ECODE_OK`: the record it reads is no longer live. -/
theorem JsonDHCPLogThreadDeinit_twice_counterexample :
    ∃ w1, JsonDHCPLogThreadDeinit 6 worldReady = .ok (TM_ECODE_OK, w1) ∧
      w1.heap.freed = [7, 6] ∧
      JsonDHCPLogThreadDeinit 6 w1 = .error (.invalid_read 6) :=
  ⟨worldReady.withHeap
      { worldReady.heap with
        cells := dropCell 6 (dropCell 7 worldReady.heap.cells)
        freed := [7, 6] },
    by rfl, by rfl, by rfl⟩

/-- C7 as amended: called on `NULL`, `JsonDHCPLogThreadDeinit` returns `TM_ECODE_OK` and
changes nothing. Called on a thread state in `Ready`, it returns `TM_ECODE_OK`, releases
the buffer and the thread-state record, each once, makes no external call and neither
releases nor changes the sink handle. It is not idempotent on a state it has torn down: a
second call on the same pointer reads the released record, so the function is to be called
once per initialised state. -/
theorem JsonDHCPLogThreadDeinit_once (w : World) (td : Ptr) (thread : LogDHCPLogThread)
    (ctx : LogDHCPFileCtx) (buf : MemBuffer) (fc : LogFileCtx)
    (hwf : w.heap.WF) (hr : Ready w td thread ctx buf fc) :
    JsonDHCPLogThreadDeinit NULL w = .ok (TM_ECODE_OK, w) ∧
    ∃ w', JsonDHCPLogThreadDeinit td w = .ok (TM_ECODE_OK, w') ∧
      w'.heap.freed = w.heap.freed ++ [thread.buffer, td] ∧
      thread.file_ctx ∉ [thread.buffer, td] ∧
      w'.heap.cells = dropCell td (dropCell thread.buffer w.heap.cells) ∧
      w'.heap.lookup td = none ∧
      w'.heap.lookup thread.buffer = none ∧
      w'.heap.lookup thread.file_ctx = some (.filectx fc) ∧
      w'.trace = w.trace ∧
      JsonDHCPLogThreadDeinit td w' = .error (.invalid_read td) := by
  have hne := hr.buffer_ne_file_ctx
  have hd := JsonDHCPLogThreadDeinit_ready w td thread ctx buf fc hwf hr
  obtain ⟨h1, _, h3, h4⟩ := hr
  have n0 : td ≠ NULL := Heap.lookup_ne_null _ hwf _ _ h1
  have n1 : td ≠ thread.buffer := by
    intro e; rw [e, h3] at h1; simp at h1
  have n2 : thread.file_ctx ≠ td := by
    intro e; rw [e, h1] at h4; simp at h4
  have nd : ((dropCell thread.buffer w.heap.cells).map Prod.fst).Nodup :=
    hwf.2.sublist (dropCell_keys_sublist _ _)
  have g1 : findCell td (dropCell td (dropCell thread.buffer w.heap.cells)) = none :=
    findCell_dropCell_same _ _ nd
  have g2 : findCell thread.buffer (dropCell td (dropCell thread.buffer w.heap.cells))
      = none := by
    rw [findCell_dropCell_ne _ _ _ (Ne.symm n1)]
    exact findCell_dropCell_same _ _ hwf.2
  have g3 : findCell thread.file_ctx (dropCell td (dropCell thread.buffer w.heap.cells))
      = some (.filectx fc) := by
    rw [findCell_dropCell_ne _ _ _ n2, findCell_dropCell_ne _ _ _ hne]
    exact h4
  refine ⟨by simp [JsonDHCPLogThreadDeinit, pure, Except.pure], _, hd, rfl, ?_, rfl, g1, g2,
    g3, rfl, ?_⟩
  · simp [hne, n2]
  · simp [JsonDHCPLogThreadDeinit, n0, Heap.getThread, Heap.lookup, World.withHeap, g1, bind,
      Except.bind, pure, Except.pure]

/-- C7 as amended, at a concrete input: the thread state of `worldReady`. -/
theorem JsonDHCPLogThreadDeinit_once_witness :
    worldReady.heap.WF ∧ Ready worldReady 6 sampleThread sampleCtx ⟨65535, []⟩ ⟨[]⟩ ∧
    JsonDHCPLogThreadDeinit NULL worldReady = .ok (TM_ECODE_OK, worldReady) ∧
    ∃ w', JsonDHCPLogThreadDeinit 6 worldReady = .ok (TM_ECODE_OK, w') ∧
      w'.heap.freed = [7, 6] ∧
      JsonDHCPLogThreadDeinit 6 w' = .error (.invalid_read 6) :=
  ⟨by decide, by decide,
    (JsonDHCPLogThreadDeinit_once worldReady 6 sampleThread sampleCtx ⟨65535, []⟩ ⟨[]⟩
      (by decide) (by decide)).1,
    (JsonDHCPLogThreadDeinit_once worldReady 6 sampleThread sampleCtx ⟨65535, []⟩ ⟨[]⟩
      (by decide) (by decide)).2.imp
      (fun _ h => ⟨h.1, h.2.1, h.2.2.2.2.2.2.2.2⟩)⟩

/-! ## The claims about the construction of the sub-logger -/

/-- C8 fails as stated: with a parent that supplies no output sink (`file_ctx` is `NULL`),
`OutputDHCPLogInitSub` reports success with a context whose sink reference is `NULL`; and
with an encoder constructor that returns `NULL`, it reports success with a context whose
encoder is `NULL`. -/
theorem OutputDHCPLogInitSub_counterexample :
    (worldNoSink.heap.lookup 2 = some (.jsonctx ⟨NULL, ⟨true, 0⟩⟩) ∧
      ∃ w', OutputDHCPLogInitSub sampleEnv 7 3 worldNoSink = .ok (⟨5, true⟩, w') ∧
        w'.heap.lookup 5 = some (.outputctx ⟨4, some .OutputDHCPLogDeInitCtxSub⟩) ∧
        w'.heap.lookup 4 = some (.dhcpctx ⟨NULL, 0, 1007, ⟨true, 0⟩⟩)) ∧
    (nullEncoderEnv.rs_dhcp_logger_new 7 = NULL ∧
      ∃ w', OutputDHCPLogInitSub nullEncoderEnv 7 3 worldParent = .ok (⟨5, true⟩, w') ∧
        w'.heap.lookup 5 = some (.outputctx ⟨4, some .OutputDHCPLogDeInitCtxSub⟩) ∧
        w'.heap.lookup 4 = some (.dhcpctx ⟨1, 0, NULL, ⟨true, 0⟩⟩)) :=
  ⟨⟨by decide,
    { heap :=
        { next := 5
          cells :=
            [(5, .outputctx ⟨4, some .OutputDHCPLogDeInitCtxSub⟩),
             (4, .dhcpctx ⟨NULL, 0, 1007, ⟨true, 0⟩⟩),
             (3, .outputctx ⟨2, none⟩), (2, .jsonctx ⟨NULL, ⟨true, 0⟩⟩)]
          freed := []
          oom := [] }
      trace := [.rs_dhcp_logger_new 7, .AppLayerParserRegisterLogger IPPROTO_UDP ALPROTO_DHCP]
      registry := [(IPPROTO_UDP, ALPROTO_DHCP)] },
    by rfl, by decide, by decide⟩,
   ⟨by decide,
    { heap :=
        { next := 5
          cells :=
            [(5, .outputctx ⟨4, some .OutputDHCPLogDeInitCtxSub⟩),
             (4, .dhcpctx ⟨1, 0, NULL, ⟨true, 0⟩⟩),
             (3, .outputctx ⟨2, none⟩), (2, .jsonctx ⟨1, ⟨true, 0⟩⟩), (1, .filectx ⟨[]⟩)]
          freed := []
          oom := [] }
      trace := [.rs_dhcp_logger_new 7, .AppLayerParserRegisterLogger IPPROTO_UDP ALPROTO_DHCP]
      registry := [(IPPROTO_UDP, ALPROTO_DHCP)] },
    by rfl, by decide, by decide⟩⟩

/-- C8 as amended: given a live parent context, `OutputDHCPLogInitSub` fails
(`result.ok = false`, and then `result.ctx = NULL`) exactly when one of its two allocation
requests fails. When both succeed it reports success with a context that is not `NULL`,
whatever the parent's sink reference and whatever `rs_dhcp_logger_new` returned, `NULL`
included: the context holds the two as they are. -/
theorem OutputDHCPLogInitSub_fails_iff_allocation_fails (E : Env) (w : World)
    (conf : ConfNode) (parent_ctx : Ptr) (parent : OutputCtx) (ajt : OutputJsonCtx)
    (hwf : w.heap.WF)
    (hparent : w.heap.lookup parent_ctx = some (.outputctx parent))
    (hajt : w.heap.lookup parent.data = some (.jsonctx ajt)) :
    ∃ r w', OutputDHCPLogInitSub E conf parent_ctx w = .ok (r, w') ∧
      (r.ok = false ↔
        (w.heap.oom.headD false = true ∨ w.heap.oom.tail.headD false = true)) ∧
      (r.ok = false → r.ctx = NULL) ∧
      (r.ok = true → r.ctx ≠ NULL ∧
        ∃ d c, w'.heap.lookup r.ctx = some (.outputctx ⟨d, some .OutputDHCPLogDeInitCtxSub⟩) ∧
          w'.heap.lookup d = some (.dhcpctx c) ∧
          c.file_ctx = ajt.file_ctx ∧ c.rs_logger = E.rs_dhcp_logger_new conf) := by
  cases h1 : w.heap.oom.headD false with
  | true =>
    refine ⟨_, _, OutputDHCPLogInitSub_no_ctx E w conf parent_ctx parent hparent h1,
      ?_, ?_, ?_⟩
    · simp
    · intro _; rfl
    · intro h; simp at h
  | false =>
    cases h2 : w.heap.oom.tail.headD false with
    | true =>
      refine ⟨_, _, OutputDHCPLogInitSub_no_output_ctx E w conf parent_ctx parent ajt hwf
        hparent hajt h1 h2, ?_, ?_, ?_⟩
      · simp
      · intro _; rfl
      · intro h; simp at h
    | false =>
      refine ⟨_, _, OutputDHCPLogInitSub_ok E w conf parent_ctx parent ajt hwf hparent hajt
        h1 h2, ?_, ?_, ?_⟩
      · simp
      · intro h; simp at h
      · intro _
        refine ⟨by simp, w.heap.next + 1,
          ⟨ajt.file_ctx, 0, E.rs_dhcp_logger_new conf, ajt.cfg⟩, ?_, ?_, rfl, rfl⟩
        · simp [Heap.lookup, findCell]
        · simp [Heap.lookup, findCell]

/-- C8 as amended, at a concrete input: the parent without a sink. -/
theorem OutputDHCPLogInitSub_fails_iff_allocation_fails_witness :
    worldNoSink.heap.WF ∧
    worldNoSink.heap.lookup 3 = some (.outputctx ⟨2, none⟩) ∧
    worldNoSink.heap.lookup 2 = some (.jsonctx ⟨NULL, ⟨true, 0⟩⟩) ∧
    ∃ r w', OutputDHCPLogInitSub sampleEnv 7 3 worldNoSink = .ok (r, w') ∧
      (r.ok = false ↔
        (worldNoSink.heap.oom.headD false = true ∨
          worldNoSink.heap.oom.tail.headD false = true)) :=
  ⟨by decide, by decide, by decide,
    match OutputDHCPLogInitSub_fails_iff_allocation_fails sampleEnv worldNoSink 7 3
      ⟨2, none⟩ ⟨NULL, ⟨true, 0⟩⟩ (by decide) (by decide) (by decide) with
    | ⟨r, w', h, hiff, _⟩ => ⟨r, w', h, hiff⟩⟩

/-- C9: given a live parent context, `OutputDHCPLogInitSub` registers the pair
(`IPPROTO_UDP`, `ALPROTO_DHCP`) if and only if it returns success. On success the external
calls are `rs_dhcp_logger_new(conf)` and the registration, and the returned context has
`OutputDHCPLogDeInitCtxSub` as its `DeInit` hook and as its data a record holding the
parent's sink reference, a copy of the parent's common settings and the encoder
`rs_dhcp_logger_new(conf)` returned. On failure there is no external call, the registry is
as it was, and the live cells are those from before the call. -/
theorem OutputDHCPLogInitSub_registers_iff_ok (E : Env) (w : World)
    (conf : ConfNode) (parent_ctx : Ptr) (parent : OutputCtx) (ajt : OutputJsonCtx)
    (hwf : w.heap.WF)
    (hparent : w.heap.lookup parent_ctx = some (.outputctx parent))
    (hajt : w.heap.lookup parent.data = some (.jsonctx ajt)) :
    ∃ r w', OutputDHCPLogInitSub E conf parent_ctx w = .ok (r, w') ∧
      (w'.registry = (IPPROTO_UDP, ALPROTO_DHCP) :: w.registry ↔ r.ok = true) ∧
      (Event.AppLayerParserRegisterLogger IPPROTO_UDP ALPROTO_DHCP
        ∈ w'.trace.drop w.trace.length ↔ r.ok = true) ∧
      (r.ok = true →
        w'.trace = w.trace ++
          [.rs_dhcp_logger_new conf,
           .AppLayerParserRegisterLogger IPPROTO_UDP ALPROTO_DHCP] ∧
        ∃ d, w'.heap.lookup r.ctx =
            some (.outputctx ⟨d, some .OutputDHCPLogDeInitCtxSub⟩) ∧
          w'.heap.lookup d =
            some (.dhcpctx ⟨ajt.file_ctx, 0, E.rs_dhcp_logger_new conf, ajt.cfg⟩)) ∧
      (r.ok = false →
        w'.trace = w.trace ∧ w'.registry = w.registry ∧
        w'.heap.cells = w.heap.cells) := by
  cases h1 : w.heap.oom.headD false with
  | true =>
    refine ⟨_, _, OutputDHCPLogInitSub_no_ctx E w conf parent_ctx parent hparent h1,
      ?_, ?_, ?_, ?_⟩
    · simp [World.withHeap]
    · simp [World.withHeap]
    · intro h; simp at h
    · intro _; exact ⟨rfl, rfl, rfl⟩
  | false =>
    cases h2 : w.heap.oom.tail.headD false with
    | true =>
      refine ⟨_, _, OutputDHCPLogInitSub_no_output_ctx E w conf parent_ctx parent ajt hwf
        hparent hajt h1 h2, ?_, ?_, ?_, ?_⟩
      · simp [World.withHeap]
      · simp [World.withHeap]
      · intro h; simp at h
      · intro _; exact ⟨rfl, rfl, rfl⟩
    | false =>
      refine ⟨_, _, OutputDHCPLogInitSub_ok E w conf parent_ctx parent ajt hwf hparent hajt
        h1 h2, ?_, ?_, ?_, ?_⟩
      · simp
      · simp
      · intro _
        refine ⟨rfl, w.heap.next + 1, ?_, ?_⟩
        · simp [Heap.lookup, findCell]
        · simp [Heap.lookup, findCell]
      · intro h; simp at h

/-- C9 at two concrete inputs: both allocations succeed, and the second allocation
fails. -/
theorem OutputDHCPLogInitSub_registers_iff_ok_witness :
    (worldParent.heap.WF ∧
      worldParent.heap.lookup 3 = some (.outputctx ⟨2, none⟩) ∧
      worldParent.heap.lookup 2 = some (.jsonctx ⟨1, ⟨true, 0⟩⟩) ∧
      OutputDHCPLogInitSub sampleEnv 7 3 worldParent = .ok (⟨5, true⟩, worldCtx) ∧
      ∃ r w', OutputDHCPLogInitSub sampleEnv 7 3 worldParent = .ok (r, w') ∧
        (w'.registry = (IPPROTO_UDP, ALPROTO_DHCP) :: worldParent.registry ↔ r.ok = true)) ∧
    (∃ w', OutputDHCPLogInitSub sampleEnv 7 3 (worldParentScript [false, true])
        = .ok (⟨NULL, false⟩, w') ∧ w'.registry = [] ∧ w'.trace = [] ∧
        w'.heap.cells = worldParent.heap.cells ∧ w'.heap.freed = [4]) ∧
    ∃ r w', OutputDHCPLogInitSub sampleEnv 7 3 (worldParentScript [false, true])
        = .ok (r, w') ∧
      (w'.registry = (IPPROTO_UDP, ALPROTO_DHCP) :: (worldParentScript [false, true]).registry
        ↔ r.ok = true) :=
  ⟨⟨by decide, by decide, by decide, by rfl,
    match OutputDHCPLogInitSub_registers_iff_ok sampleEnv worldParent 7 3 ⟨2, none⟩
      ⟨1, ⟨true, 0⟩⟩ (by decide) (by decide) (by decide) with
    | ⟨r, w', h, hiff, _⟩ => ⟨r, w', h, hiff⟩⟩,
   ⟨{ heap := { next := 4, cells := worldParent.heap.cells, freed := [4], oom := [] }
      trace := []
      registry := [] }, by rfl, by rfl, by rfl, by rfl, by rfl⟩,
   match OutputDHCPLogInitSub_registers_iff_ok sampleEnv (worldParentScript [false, true])
      7 3 ⟨2, none⟩ ⟨1, ⟨true, 0⟩⟩ (by decide) (by decide) (by decide) with
    | ⟨r, w', h, hiff, _⟩ => ⟨r, w', h, hiff⟩⟩

end DHCPLog
